import Mathlib

/-!
Verification development for the nodal-core compliance evaluation pipeline.

The development shallowly embeds the two core components of the repository:

* `geometry.py` — the turning-circle feasibility checker (`check_turning_circle`),
* `rules.py` — the BFS 2024:1 rule engine (`BFS2024ComplianceChecker`), together
  with the slope-normalisation snippet of `parser.py` that feeds it.

Conventions of the embedding:

* Python floats are modelled by exact rationals (`ℚ`); the numeric comparisons
  of the source are order comparisons that the rational order models exactly.
* Python dictionaries with optional keys are modelled by structures with
  `Option` fields; a missing key is `none`.
* Fallible Python code (a `raise`, or a `ZeroDivisionError` inside an f-string)
  is modelled with `Except String`.
* Fixed-precision float rendering inside Python f-strings (`:.0f`, `:.1f`,
  `:.2f`) is abstracted by `fmtNum`, which renders the exact rational; the
  integer rendering `{len(boundary)}` is rendered exactly by `toString`.
* The wall-clock `timestamp` field of `ComplianceResult` (from
  `datetime.now()`) is outside the evaluation logic and is omitted.
* The exact planar predicates that the source delegates to the shapely
  library (`polygon.contains(point)`, `polygon.contains(circle)`,
  `polygon.is_valid`) are modelled by the standard exact-arithmetic
  algorithms on rationals: even–odd ray casting for point membership,
  centre-membership plus an edge-clearance test for disc containment, and a
  nonzero-area plus pairwise edge-crossing test for ring validity.
-/

/-- A 2D point in millimetres, as the `[x, y]` coordinate pairs of a space
boundary. -/
structure Point where
  x : ℚ
  y : ℚ
deriving Repr, DecidableEq

/-- The closed ring of boundary edges of a polygon given by its vertex list:
consecutive vertices are joined and the last vertex is joined back to the
first, as `shapely.geometry.Polygon` does with a boundary list. -/
def polyEdges : List Point → List (Point × Point)
  | [] => []
  | v :: t => (v :: t).zip (t ++ [v])

/-- Smallest x coordinate of a vertex list (`polygon.bounds` minx). -/
def minX : List Point → ℚ
  | [] => 0
  | v :: t => t.foldl (fun m w => min m w.x) v.x

/-- Largest x coordinate of a vertex list (`polygon.bounds` maxx). -/
def maxX : List Point → ℚ
  | [] => 0
  | v :: t => t.foldl (fun m w => max m w.x) v.x

/-- Smallest y coordinate of a vertex list (`polygon.bounds` miny). -/
def minY : List Point → ℚ
  | [] => 0
  | v :: t => t.foldl (fun m w => min m w.y) v.y

/-- Largest y coordinate of a vertex list (`polygon.bounds` maxy). -/
def maxY : List Point → ℚ
  | [] => 0
  | v :: t => t.foldl (fun m w => max m w.y) v.y

/-- Whether the boundary edge `e` crosses the horizontal level `p.y`
(its endpoints lie on strictly different sides of the level, the standard
even–odd crossing condition). -/
def levelCross (p : Point) (e : Point × Point) : Bool :=
  decide (p.y < e.1.y) != decide (p.y < e.2.y)

/-- The x coordinate at which the (extended) edge `e` meets the horizontal
level `p.y`. -/
def crossX (p : Point) (e : Point × Point) : ℚ :=
  e.1.x + (p.y - e.1.y) * (e.2.x - e.1.x) / (e.2.y - e.1.y)

/-- Whether the rightward horizontal ray from `p` crosses the edge `e`. -/
def crossesRay (p : Point) (e : Point × Point) : Bool :=
  levelCross p e && decide (p.x < crossX p e)

/-- Exact even–odd ray-casting model of shapely's `polygon.contains(point)`:
the point is inside when the rightward ray from it crosses an odd number of
boundary edges. -/
def pointInPolygon (p : Point) (poly : List Point) : Bool :=
  ((polyEdges poly).countP (fun e => crossesRay p e)) % 2 == 1

/-- Squared distance from the point `p` to the segment from `a` to `b`,
by the standard clamped-projection formula (exact-arithmetic model of the
segment distance shapely computes). -/
def distSqPointSeg (p a b : Point) : ℚ :=
  let dx := b.x - a.x
  let dy := b.y - a.y
  let dd := dx * dx + dy * dy
  if dd = 0 then (p.x - a.x) ^ 2 + (p.y - a.y) ^ 2
  else
    let t := ((p.x - a.x) * dx + (p.y - a.y) * dy) / dd
    let tc := max 0 (min 1 t)
    (p.x - (a.x + tc * dx)) ^ 2 + (p.y - (a.y + tc * dy)) ^ 2

/-- Exact-arithmetic model of shapely's `polygon.contains(circle)` for the
disc `center_point.buffer(radius)`: the disc lies inside the simple polygon
exactly when its centre does and no boundary edge comes closer to the centre
than the radius. -/
def circleContainedInPolygon (poly : List Point) (c : Point) (radius : ℚ) : Bool :=
  pointInPolygon c poly &&
    (polyEdges poly).all (fun e => decide (radius ^ 2 ≤ distSqPointSeg c e.1 e.2))

/-- Twice the cross product orientation of the triple `a b c`. -/
def orient (a b c : Point) : ℚ :=
  (b.x - a.x) * (c.y - a.y) - (b.y - a.y) * (c.x - a.x)

/-- Whether `p` lies on the closed segment from `a` to `b`. -/
def onSegment (a b p : Point) : Bool :=
  decide (orient a b p = 0) &&
    decide (min a.x b.x ≤ p.x) && decide (p.x ≤ max a.x b.x) &&
    decide (min a.y b.y ≤ p.y) && decide (p.y ≤ max a.y b.y)

/-- Whether the closed segments `p1 q1` and `p2 q2` have a common point
(standard orientation test plus collinear-overlap cases). -/
def segmentsIntersect (p1 q1 p2 q2 : Point) : Bool :=
  let o1 := orient p1 q1 p2
  let o2 := orient p1 q1 q2
  let o3 := orient p2 q2 p1
  let o4 := orient p2 q2 q1
  (decide (o1 * o2 < 0) && decide (o3 * o4 < 0)) ||
    onSegment p1 q1 p2 || onSegment p1 q1 q2 ||
    onSegment p2 q2 p1 || onSegment p2 q2 q1

/-- Twice the signed area of the ring (shoelace sum over the closed edges). -/
def signedArea2 (poly : List Point) : ℚ :=
  (polyEdges poly).foldl (fun acc e => acc + (e.1.x * e.2.y - e.2.x * e.1.y)) 0

/-- All unordered pairs of elements of a list. -/
def pairsOf : List α → List (α × α)
  | [] => []
  | a :: t => t.map (fun b => (a, b)) ++ pairsOf t

/-- Whether two edges have a vertex in common. -/
def sharesEndpoint (e f : Point × Point) : Bool :=
  e.1 == f.1 || e.1 == f.2 || e.2 == f.1 || e.2 == f.2

/-- Exact-arithmetic model of shapely's `polygon.is_valid` for the boundary
ring: the ring has nonzero area and no two edges that do not share an
endpoint have a common point. -/
def polygonIsValid (poly : List Point) : Bool :=
  decide (signedArea2 poly ≠ 0) &&
    (pairsOf (polyEdges poly)).all
      (fun q => sharesEndpoint q.1 q.2 || ! segmentsIntersect q.1.1 q.1.2 q.2.1 q.2.2)

/-- Model of `numpy.arange(start, stop, step)` for a positive step: the
values `start + i * step` for `0 ≤ i < ⌈(stop - start) / step⌉`. -/
def arange (start stop step : ℚ) : List ℚ :=
  (List.range ((stop - start) / step).ceil.toNat).map (fun i => start + i * step)

/-- Abstraction of Python's fixed-precision float formatting (`:.0f`,
`:.1f`, `:.2f`): renders the exact rational value instead of a rounded
decimal. Only free-text detail strings depend on it. -/
def fmtNum (q : ℚ) : String :=
  toString q

/-- Result record of the turning-circle feasibility checker, as the result
dictionary built by `geometry.check_turning_circle`. -/
structure GeomResult where
  space_id : String
  space_name : String
  passed : Bool
  circle_diameter_mm : ℚ
  circle_center : Option Point
  collision_details : Option String
deriving Repr, DecidableEq

/-- Room (space) record, as the flat dictionary produced by the extractor and
consumed by `geometry.py` and `rules.py`. A missing key is `none`. -/
structure Space where
  id : Option String := none
  name : Option String := none
  type : Option String := none
  boundary : Option (List Point) := none
  corridor_width_mm : Option ℚ := none
  ramp_slope_ratio : Option ℚ := none
  handrail_height_mm : Option ℚ := none
  door_opens_outward : Option Bool := none
  rest_area_25m_compliant : Option Bool := none
  elevator_width_mm : Option ℚ := none
  elevator_depth_mm : Option ℚ := none
  elevator_door_width_mm : Option ℚ := none
  emergency_exit_width_mm : Option ℚ := none
  emergency_exit_door_opens_outward : Option Bool := none
  stair_rise_mm : Option ℚ := none
  stair_run_mm : Option ℚ := none
  stair_handrail_both_sides : Option Bool := none
  stair_width_mm : Option ℚ := none
  parking_width_mm : Option ℚ := none
  parking_length_mm : Option ℚ := none
  window_sill_height_mm : Option ℚ := none
  window_opening_width_mm : Option ℚ := none
  window_opening_height_mm : Option ℚ := none
  tactile_guidance_present : Option Bool := none
deriving Repr, DecidableEq

/-- Row-major grid of candidate disc centres: the outer loop ranges over
`x_points`, the inner loop over `y_points`, exactly as in the source's
nested `for` loops. -/
def gridCandidates (minx miny maxx maxy radius spacing : ℚ) : List Point :=
  (arange (minx + radius) (maxx - radius + spacing) spacing).flatMap fun x =>
    (arange (miny + radius) (maxy - radius + spacing) spacing).map fun y => ⟨x, y⟩

/-- Embedding of `geometry.check_turning_circle`: decide whether a disc of
diameter 1500mm fits inside the space boundary, returning a first-fit witness
centre in row-major grid order, or a diagnostic on failure. On the
search-failure path the source reports the candidate with the smallest
disc-minus-polygon leakage area; that area is a real number involving
circular segments, so the diagnostic text of that branch is abstracted to its
branch condition (some candidate centre was inside the polygon) without the
leakage figures. Every error condition returns a failed result; the function
is total, as the source never raises out of its public boundary. -/
def check_turning_circle (s : Space) : GeomResult :=
  let base : GeomResult :=
    { space_id := s.id.getD "unknown"
      space_name := s.name.getD "unknown"
      passed := false
      circle_diameter_mm := 1500
      circle_center := none
      collision_details := none }
  match s.boundary with
  | none => { base with collision_details := some "ERROR: No boundary data provided" }
  | some boundary =>
    if boundary.length < 3 then
      let msg :=
        "ERROR: Boundary has only " ++ toString boundary.length ++
          " points (minimum 3 required)"
      { base with collision_details := some msg }
    else if ! polygonIsValid boundary then
      { base with collision_details := some "ERROR: Invalid polygon geometry (self-intersecting or malformed)" }
    else
      let minx := minX boundary
      let miny := minY boundary
      let maxx := maxX boundary
      let maxy := maxY boundary
      let radius : ℚ := 750
      let spacing : ℚ := 100
      let cands := gridCandidates minx miny maxx maxy radius spacing
      match cands.find? (fun c =>
          pointInPolygon c boundary && circleContainedInPolygon boundary c radius) with
      | some c =>
        let msg :=
          "Turning circle successfully fits with center at (" ++
            fmtNum c.x ++ ", " ++ fmtNum c.y ++ ")"
        { base with passed := true, circle_center := some c, collision_details := some msg }
      | none =>
        if cands.any (fun c => pointInPolygon c boundary) then
          let msg :=
            "FAIL: No valid turning circle position found. " ++
              "Space may be too narrow or obstructed."
          { base with collision_details := some msg }
        else
          let msg :=
            "FAIL: Space dimensions (" ++ fmtNum (maxx - minx) ++ " x " ++
              fmtNum (maxy - miny) ++ " mm) are too small for 1500mm turning circle. " ++
              "Minimum required: 1500mm in at least one direction."
          { base with collision_details := some msg }

/-- ASCII lowering of one character (the `A`-`Z` range mapped to
`a`-`z`). -/
def lowerChar (c : Char) : Char :=
  if 'A' ≤ c ∧ c ≤ 'Z' then Char.ofNat (c.toNat + 32) else c

/-- Model of Python's `str.lower()` for the ASCII type tags the engine
compares: lowers every character of the string. -/
def toLowerAscii (s : String) : String :=
  String.mk (s.data.map lowerChar)

/-- Status values for rule compliance checks (`RuleStatus` enum). -/
inductive RuleStatus where
  | PASS
  | FAIL
  | NOT_APPLICABLE
  | NOT_CHECKED
  | ERROR
deriving Repr, DecidableEq

/-- Severity levels for compliance violations (`Severity` enum). -/
inductive Severity where
  | CRITICAL
  | WARNING
  | INFO
deriving Repr, DecidableEq

/-- Overall compliance status for a space (`OverallStatus` enum). -/
inductive OverallStatus where
  | PASS
  | FAIL
  | PARTIAL
  | ERROR
deriving Repr, DecidableEq

/-- Result of a single rule check (`RuleResult` dataclass). -/
structure RuleResult where
  rule_id : String
  rule_name : String
  status : RuleStatus
  details : String
  severity : Severity
  reference : String := ""
deriving Repr, DecidableEq

/-- Complete compliance check result for a space (`ComplianceResult`
dataclass). The wall-clock `timestamp` field is omitted from the embedding. -/
structure ComplianceResult where
  space_id : String
  space_name : String
  space_type : String
  overall_status : OverallStatus
  rules_checked : List RuleResult
  passed_count : Nat
  failed_count : Nat
  not_checked_count : Nat
deriving Repr, DecidableEq

/-- Static rule record of the catalogue (`RULE_*` class attributes): stable
identifier, display name, regulatory reference, severity and the set of room
types the rule applies to. -/
structure RuleDef where
  id : String
  name : String
  reference : String
  severity : Severity
  applies_to : List String
  description_en : String := ""
deriving Repr, DecidableEq

def RULE_TURNING_CIRCLE : RuleDef :=
  { id := "BFS-2024:1-3:14"
    name := "Turning Circle (1500mm)"
    reference := "BFS 2024:1 Section 3:14"
    severity := Severity.CRITICAL
    applies_to := ["bathroom", "wc", "toilet"] }

def RULE_DOOR_WIDTH : RuleDef :=
  { id := "BFS-2024:1-3:15"
    name := "Door Width (900mm minimum)"
    reference := "BFS 2024:1 Section 3:15"
    severity := Severity.CRITICAL
    applies_to := ["bathroom", "wc", "toilet"] }

def RULE_THRESHOLD : RuleDef :=
  { id := "BFS-2024:1-3:16"
    name := "Threshold Height (25mm max)"
    reference := "BFS 2024:1 Section 3:16"
    severity := Severity.WARNING
    applies_to := ["bathroom", "wc", "toilet", "entrance"] }

def RULE_CORRIDOR_WIDTH : RuleDef :=
  { id := "BFS-2024:1-3:22"
    name := "Corridor Width (1300mm minimum)"
    reference := "BFS 2024:1 Section 3:22"
    severity := Severity.CRITICAL
    applies_to := ["corridor", "circulation", "passage", "hallway", "korridor"]
    description_en := "Minimum clear width 1300mm for accessibility." }

def RULE_RAMP_SLOPE : RuleDef :=
  { id := "BFS-2024:1-3:231"
    name := "Ramp Slope (max 1:12 / 8.33%)"
    reference := "BFS 2024:1 Section 3:231"
    severity := Severity.CRITICAL
    applies_to := ["ramp", "rampway"]
    description_en := "Maximum slope 1:12 (8.33%) for ramps." }

def RULE_HANDRAIL_HEIGHT : RuleDef :=
  { id := "BFS-2024:1-3:232"
    name := "Handrail Height (900–1000mm)"
    reference := "BFS 2024:1 Section 3:232"
    severity := Severity.CRITICAL
    applies_to := ["ramp", "stair", "stairs", "trappa"]
    description_en := "Handrail height must be between 900mm and 1000mm." }

def RULE_BATHROOM_DOOR_SWING : RuleDef :=
  { id := "BFS-2024:1-3:241"
    name := "Bathroom Door Opens Outward"
    reference := "BFS 2024:1 Section 3:241"
    severity := Severity.CRITICAL
    applies_to := ["bathroom", "wc", "toilet"]
    description_en := "Bathroom door must open outward for emergency access." }

def RULE_REST_AREA_25M : RuleDef :=
  { id := "BFS-2024:1-3:311"
    name := "Rest Area Every 25m (corridors)"
    reference := "BFS 2024:1 Section 3:311"
    severity := Severity.WARNING
    applies_to := ["corridor", "circulation", "passage", "hallway", "korridor"]
    description_en := "Rest area or widening required at least every 25m in corridors." }

def RULE_ELEVATOR_SIZE : RuleDef :=
  { id := "BFS-2024:1-3:143"
    name := "Elevator Minimum Size (1100mm x 1400mm)"
    reference := "BFS 2024:1 Section 3:143"
    severity := Severity.CRITICAL
    applies_to := ["elevator", "lift", "hiss"]
    description_en := "Elevator cabin minimum clear dimensions 1100mm x 1400mm." }

def RULE_ELEVATOR_DOOR_WIDTH : RuleDef :=
  { id := "BFS-2024:1-3:144"
    name := "Elevator Door Width (800mm minimum)"
    reference := "BFS 2024:1 Section 3:144"
    severity := Severity.CRITICAL
    applies_to := ["elevator", "lift", "hiss"]
    description_en := "Elevator door clear width minimum 800mm." }

def RULE_EMERGENCY_EXIT_WIDTH : RuleDef :=
  { id := "BFS-2024:1-3:51"
    name := "Emergency Exit Width (900mm minimum)"
    reference := "BFS 2024:1 Section 3:51"
    severity := Severity.CRITICAL
    applies_to := ["emergency_exit", "exit", "nödutgång", "utgång", "emergency", "evacuation"]
    description_en := "Emergency exit clear width minimum 900mm." }

def RULE_EMERGENCY_EXIT_DOOR_SWING : RuleDef :=
  { id := "BFS-2024:1-3:52"
    name := "Emergency Exit Door Opens Outward"
    reference := "BFS 2024:1 Section 3:52"
    severity := Severity.CRITICAL
    applies_to := ["emergency_exit", "exit", "nödutgång", "utgång", "emergency", "evacuation"]
    description_en := "Emergency exit door must open outward for evacuation." }

def RULE_STAIR_DIMENSIONS : RuleDef :=
  { id := "BFS-2024:1-3:421"
    name := "Stair Step Height (max 150mm) and Depth (min 300mm)"
    reference := "BFS 2024:1 Section 3:421"
    severity := Severity.CRITICAL
    applies_to := ["stair", "stairs", "trappa"]
    description_en := "Step rise maximum 150mm, step run minimum 300mm." }

def RULE_PARKING_WIDTH : RuleDef :=
  { id := "BFS-2024:1-3:131"
    name := "Accessible Parking Space Width (3600mm minimum)"
    reference := "BFS 2024:1 Section 3:131"
    severity := Severity.CRITICAL
    applies_to := ["parking", "parkeringsplats", "accessible_parking", "parking_space"]
    description_en := "Accessible parking space minimum clear width 3600mm." }

def RULE_PARKING_LENGTH : RuleDef :=
  { id := "BFS-2024:1-3:132"
    name := "Parking Space Length (5000mm minimum)"
    reference := "BFS 2024:1 Section 3:132"
    severity := Severity.CRITICAL
    applies_to := ["parking", "parkeringsplats", "accessible_parking", "parking_space"]
    description_en := "Parking space length minimum 5000mm." }

def RULE_STAIR_HANDRAIL_BOTH : RuleDef :=
  { id := "BFS-2024:1-3:411"
    name := "Stair Handrail Both Sides Required"
    reference := "BFS 2024:1 Section 3:411"
    severity := Severity.CRITICAL
    applies_to := ["stair", "stairs", "trappa"]
    description_en := "Stairs must have handrails on both sides." }

def RULE_STAIR_WIDTH : RuleDef :=
  { id := "BFS-2024:1-3:412"
    name := "Stair Width (1200mm minimum)"
    reference := "BFS 2024:1 Section 3:412"
    severity := Severity.CRITICAL
    applies_to := ["stair", "stairs", "trappa"]
    description_en := "Stair clear width minimum 1200mm." }

def RULE_WINDOW_SILL_HEIGHT : RuleDef :=
  { id := "BFS-2024:1-3:531"
    name := "Window Sill Height (max 600mm from floor)"
    reference := "BFS 2024:1 Section 3:531"
    severity := Severity.WARNING
    applies_to := ["window", "fönster", "room", "rum", "space"]
    description_en := "Window sill height maximum 600mm from floor level." }

def RULE_WINDOW_OPENING_SIZE : RuleDef :=
  { id := "BFS-2024:1-3:532"
    name := "Window Opening (min 900mm x 1200mm)"
    reference := "BFS 2024:1 Section 3:532"
    severity := Severity.WARNING
    applies_to := ["window", "fönster", "room", "rum", "space"]
    description_en := "Window opening minimum 900mm x 1200mm for emergency access." }

def RULE_TACTILE_GUIDANCE : RuleDef :=
  { id := "BFS-2024:1-3:611"
    name := "Tactile Floor Guidance (visually impaired)"
    reference := "BFS 2024:1 Section 3:611"
    severity := Severity.WARNING
    applies_to := ["corridor", "circulation", "passage", "hallway", "korridor", "public", "offentlig", "lobby", "entrance"]
    description_en := "Tactile floor guidance required for visually impaired in public areas." }

/-- The fixed rule catalogue in evaluation order (`self.rules`). -/
def rulesCatalogue : List RuleDef :=
  [RULE_TURNING_CIRCLE, RULE_DOOR_WIDTH, RULE_THRESHOLD, RULE_CORRIDOR_WIDTH,
   RULE_RAMP_SLOPE, RULE_HANDRAIL_HEIGHT, RULE_BATHROOM_DOOR_SWING,
   RULE_REST_AREA_25M, RULE_ELEVATOR_SIZE, RULE_ELEVATOR_DOOR_WIDTH,
   RULE_EMERGENCY_EXIT_WIDTH, RULE_EMERGENCY_EXIT_DOOR_SWING,
   RULE_STAIR_DIMENSIONS, RULE_PARKING_WIDTH, RULE_PARKING_LENGTH,
   RULE_STAIR_HANDRAIL_BOTH, RULE_STAIR_WIDTH, RULE_WINDOW_SILL_HEIGHT,
   RULE_WINDOW_OPENING_SIZE, RULE_TACTILE_GUIDANCE]

/-- The 20 catalogue rule identifiers in evaluation order. -/
def catalogueRuleIds : List String :=
  rulesCatalogue.map RuleDef.id

/-- The NOT_APPLICABLE result record that every rule check builds verbatim
when the space type is outside its applicable set. -/
def naResult (rule : RuleDef) (space_type : String) : RuleResult :=
  { rule_id := rule.id
    rule_name := rule.name
    status := RuleStatus.NOT_APPLICABLE
    details := "Rule does not apply to space type: " ++ space_type
    severity := rule.severity
    reference := rule.reference }

/-- Python float division, raising ZeroDivisionError on a zero denominator. -/
def pyDiv (a b : ℚ) : Except String ℚ :=
  if b = 0 then Except.error "ZeroDivisionError: float division by zero"
  else Except.ok (a / b)

/-- Embedding of `_calculate_min_space_width`: the smaller axis-aligned
bounding-box dimension of the boundary, `0` for fewer than 3 points. -/
def calculate_min_space_width (boundary : List Point) : ℚ :=
  if boundary.length < 3 then 0
  else min (maxX boundary - minX boundary) (maxY boundary - minY boundary)

/-- Embedding of `check_turning_circle_rule` (BFS 2024:1 Section 3:14). -/
def check_turning_circle_rule (s : Space) (geometry_result : Option GeomResult) :
    RuleResult :=
  let rule := RULE_TURNING_CIRCLE
  let space_type := toLowerAscii (s.type.getD "")
  if space_type ∉ rule.applies_to then
    naResult rule space_type
  else
    match geometry_result with
    | none =>
      { rule_id := rule.id, rule_name := rule.name, status := RuleStatus.ERROR
        details := "Geometry check result not provided"
        severity := rule.severity, reference := rule.reference }
    | some g =>
      if some g.space_id ≠ s.id then
        { rule_id := rule.id, rule_name := rule.name, status := RuleStatus.ERROR
          details := "Geometry result space_id mismatch"
          severity := rule.severity, reference := rule.reference }
      else if g.passed then
        let center_str :=
          match g.circle_center with
          | some c => " at position (" ++ fmtNum c.x ++ ", " ++ fmtNum c.y ++ ")mm"
          | none => ""
        { rule_id := rule.id, rule_name := rule.name, status := RuleStatus.PASS
          details := "1500mm turning circle fits in space" ++ center_str
          severity := rule.severity, reference := rule.reference }
      else
        let collision_details := g.collision_details.getD "Circle does not fit"
        { rule_id := rule.id, rule_name := rule.name, status := RuleStatus.FAIL
          details := "1500mm turning circle does not fit: " ++ collision_details
          severity := rule.severity, reference := rule.reference }

/-- Embedding of `check_door_width_rule` (BFS 2024:1 Section 3:15); uses the
space's smaller bounding-box dimension as a simplified proxy for door width. -/
def check_door_width_rule (s : Space) : RuleResult :=
  let rule := RULE_DOOR_WIDTH
  let space_type := toLowerAscii (s.type.getD "")
  if space_type ∉ rule.applies_to then
    naResult rule space_type
  else
    match s.boundary with
    | none =>
      { rule_id := rule.id, rule_name := rule.name, status := RuleStatus.ERROR
        details := "Invalid or missing space boundary"
        severity := rule.severity, reference := rule.reference }
    | some boundary =>
      if boundary.length < 3 then
        { rule_id := rule.id, rule_name := rule.name, status := RuleStatus.ERROR
          details := "Invalid or missing space boundary"
          severity := rule.severity, reference := rule.reference }
      else
        let min_width := calculate_min_space_width boundary
        let required_width : ℚ := 900
        if min_width ≥ required_width then
          { rule_id := rule.id, rule_name := rule.name, status := RuleStatus.PASS
            details := "Space minimum width " ++ fmtNum min_width ++ "mm >= required " ++
              fmtNum required_width ++ "mm (simplified check - actual door width not yet extracted)"
            severity := rule.severity, reference := rule.reference }
        else
          { rule_id := rule.id, rule_name := rule.name, status := RuleStatus.FAIL
            details := "Space minimum width " ++ fmtNum min_width ++ "mm < required " ++
              fmtNum required_width ++ "mm (simplified check - may pass with proper door extraction)"
            severity := rule.severity, reference := rule.reference }

/-- Embedding of `check_threshold_rule` (BFS 2024:1 Section 3:16); a
placeholder that always returns NOT_CHECKED for applicable spaces. -/
def check_threshold_rule (s : Space) : RuleResult :=
  let rule := RULE_THRESHOLD
  let space_type := toLowerAscii (s.type.getD "")
  if space_type ∉ rule.applies_to then
    naResult rule space_type
  else
    { rule_id := rule.id, rule_name := rule.name, status := RuleStatus.NOT_CHECKED
      details := "Threshold data not available in current IFC file. Will be checked when door/threshold extraction is implemented."
      severity := rule.severity, reference := rule.reference }

/-- Embedding of `check_corridor_width_rule` (BFS 2024:1 Section 3:22). -/
def check_corridor_width_rule (s : Space) : RuleResult :=
  let rule := RULE_CORRIDOR_WIDTH
  let space_type := toLowerAscii (s.type.getD "")
  if space_type ∉ rule.applies_to then
    naResult rule space_type
  else
    match s.corridor_width_mm with
    | none =>
      { rule_id := rule.id, rule_name := rule.name, status := RuleStatus.NOT_CHECKED
        details := "Corridor width not available in current IFC file. Will be checked when corridor geometry extraction is implemented."
        severity := rule.severity, reference := rule.reference }
    | some corridor_width_mm =>
      let required_width : ℚ := 1300
      if corridor_width_mm ≥ required_width then
        { rule_id := rule.id, rule_name := rule.name, status := RuleStatus.PASS
          details := "Corridor width " ++ fmtNum corridor_width_mm ++ "mm >= required " ++
            fmtNum required_width ++ "mm. " ++ rule.description_en
          severity := rule.severity, reference := rule.reference }
      else
        { rule_id := rule.id, rule_name := rule.name, status := RuleStatus.FAIL
          details := "Corridor width " ++ fmtNum corridor_width_mm ++ "mm < required " ++
            fmtNum required_width ++ "mm. " ++ rule.description_en
          severity := rule.severity, reference := rule.reference }

/-- Embedding of `check_ramp_slope_rule` (BFS 2024:1 Section 3:231). The
pass-branch details render `1:{1/slope_ratio:.1f}`, a Python division that
raises ZeroDivisionError when the stored slope is exactly 0, so the function
is fallible. No percentage normalisation happens here: the raw stored value
is compared against 1/12 directly. -/
def check_ramp_slope_rule (s : Space) : Except String RuleResult :=
  let rule := RULE_RAMP_SLOPE
  let space_type := toLowerAscii (s.type.getD "")
  if space_type ∉ rule.applies_to then
    Except.ok (naResult rule space_type)
  else
    match s.ramp_slope_ratio with
    | none =>
      Except.ok
        { rule_id := rule.id, rule_name := rule.name, status := RuleStatus.NOT_CHECKED
          details := "Ramp slope not available in current IFC file. Will be checked when ramp geometry extraction is implemented."
          severity := rule.severity, reference := rule.reference }
    | some slope_ratio =>
      let max_slope : ℚ := 1 / 12
      if slope_ratio ≤ max_slope then do
        let pct := slope_ratio * 100
        let inv ← pyDiv 1 slope_ratio
        Except.ok
          { rule_id := rule.id, rule_name := rule.name, status := RuleStatus.PASS
            details := "Ramp slope " ++ fmtNum pct ++ "% (1:" ++ fmtNum inv ++
              ") <= max 8.33% (1:12). " ++ rule.description_en
            severity := rule.severity, reference := rule.reference }
      else
        let pct := slope_ratio * 100
        Except.ok
          { rule_id := rule.id, rule_name := rule.name, status := RuleStatus.FAIL
            details := "Ramp slope " ++ fmtNum pct ++ "% exceeds max 8.33% (1:12). " ++
              rule.description_en
            severity := rule.severity, reference := rule.reference }

/-- Embedding of `check_handrail_height_rule` (BFS 2024:1 Section 3:232). -/
def check_handrail_height_rule (s : Space) : RuleResult :=
  let rule := RULE_HANDRAIL_HEIGHT
  let space_type := toLowerAscii (s.type.getD "")
  if space_type ∉ rule.applies_to then
    naResult rule space_type
  else
    match s.handrail_height_mm with
    | none =>
      { rule_id := rule.id, rule_name := rule.name, status := RuleStatus.NOT_CHECKED
        details := "Handrail height not available in current IFC file. Will be checked when railing extraction is implemented."
        severity := rule.severity, reference := rule.reference }
    | some handrail_height_mm =>
      let min_h : ℚ := 900
      let max_h : ℚ := 1000
      if min_h ≤ handrail_height_mm ∧ handrail_height_mm ≤ max_h then
        { rule_id := rule.id, rule_name := rule.name, status := RuleStatus.PASS
          details := "Handrail height " ++ fmtNum handrail_height_mm ++
            "mm within 900–1000mm. " ++ rule.description_en
          severity := rule.severity, reference := rule.reference }
      else
        { rule_id := rule.id, rule_name := rule.name, status := RuleStatus.FAIL
          details := "Handrail height " ++ fmtNum handrail_height_mm ++
            "mm outside 900–1000mm. " ++ rule.description_en
          severity := rule.severity, reference := rule.reference }

/-- Embedding of `check_bathroom_door_swing_rule` (BFS 2024:1 Section 3:241). -/
def check_bathroom_door_swing_rule (s : Space) : RuleResult :=
  let rule := RULE_BATHROOM_DOOR_SWING
  let space_type := toLowerAscii (s.type.getD "")
  if space_type ∉ rule.applies_to then
    naResult rule space_type
  else
    match s.door_opens_outward with
    | none =>
      { rule_id := rule.id, rule_name := rule.name, status := RuleStatus.NOT_CHECKED
        details := "Door swing direction not available in current IFC file. Will be checked when door extraction is implemented."
        severity := rule.severity, reference := rule.reference }
    | some door_opens_outward =>
      if door_opens_outward then
        { rule_id := rule.id, rule_name := rule.name, status := RuleStatus.PASS
          details := "Bathroom door opens outward. " ++ rule.description_en
          severity := rule.severity, reference := rule.reference }
      else
        { rule_id := rule.id, rule_name := rule.name, status := RuleStatus.FAIL
          details := "Bathroom door does not open outward; must open outward for emergency access."
          severity := rule.severity, reference := rule.reference }

/-- Embedding of `check_rest_area_25m_rule` (BFS 2024:1 Section 3:311). -/
def check_rest_area_25m_rule (s : Space) : RuleResult :=
  let rule := RULE_REST_AREA_25M
  let space_type := toLowerAscii (s.type.getD "")
  if space_type ∉ rule.applies_to then
    naResult rule space_type
  else
    match s.rest_area_25m_compliant with
    | none =>
      { rule_id := rule.id, rule_name := rule.name, status := RuleStatus.NOT_CHECKED
        details := "Corridor length and rest area data not available in current IFC file. Will be checked when corridor/rest-area extraction is implemented."
        severity := rule.severity, reference := rule.reference }
    | some has_rest_areas_ok =>
      if has_rest_areas_ok then
        { rule_id := rule.id, rule_name := rule.name, status := RuleStatus.PASS
          details := "Rest area or widening provided at least every 25m. " ++ rule.description_en
          severity := rule.severity, reference := rule.reference }
      else
        { rule_id := rule.id, rule_name := rule.name, status := RuleStatus.FAIL
          details := "Rest area or widening required at least every 25m in corridor."
          severity := rule.severity, reference := rule.reference }

/-- Embedding of `check_elevator_size_rule` (BFS 2024:1 Section 3:143). -/
def check_elevator_size_rule (s : Space) : RuleResult :=
  let rule := RULE_ELEVATOR_SIZE
  let space_type := toLowerAscii (s.type.getD "")
  if space_type ∉ rule.applies_to then
    naResult rule space_type
  else
    match s.elevator_width_mm, s.elevator_depth_mm with
    | some width_mm, some depth_mm =>
      let min_width : ℚ := 1100
      let min_depth : ℚ := 1400
      if width_mm ≥ min_width ∧ depth_mm ≥ min_depth then
        { rule_id := rule.id, rule_name := rule.name, status := RuleStatus.PASS
          details := "Elevator size " ++ fmtNum width_mm ++ "mm x " ++ fmtNum depth_mm ++
            "mm >= required " ++ fmtNum min_width ++ "mm x " ++ fmtNum min_depth ++
            "mm. " ++ rule.description_en
          severity := rule.severity, reference := rule.reference }
      else
        let issues :=
          (if width_mm < min_width then
            ["width " ++ fmtNum width_mm ++ "mm < " ++ fmtNum min_width ++ "mm"] else []) ++
          (if depth_mm < min_depth then
            ["depth " ++ fmtNum depth_mm ++ "mm < " ++ fmtNum min_depth ++ "mm"] else [])
        { rule_id := rule.id, rule_name := rule.name, status := RuleStatus.FAIL
          details := "Elevator size insufficient: " ++ String.intercalate "; " issues ++
            ". " ++ rule.description_en
          severity := rule.severity, reference := rule.reference }
    | _, _ =>
      { rule_id := rule.id, rule_name := rule.name, status := RuleStatus.NOT_CHECKED
        details := "Elevator cabin dimensions not available in current IFC file. Will be checked when elevator geometry extraction is implemented."
        severity := rule.severity, reference := rule.reference }

/-- Embedding of `check_elevator_door_width_rule` (BFS 2024:1 Section 3:144). -/
def check_elevator_door_width_rule (s : Space) : RuleResult :=
  let rule := RULE_ELEVATOR_DOOR_WIDTH
  let space_type := toLowerAscii (s.type.getD "")
  if space_type ∉ rule.applies_to then
    naResult rule space_type
  else
    match s.elevator_door_width_mm with
    | none =>
      { rule_id := rule.id, rule_name := rule.name, status := RuleStatus.NOT_CHECKED
        details := "Elevator door width not available in current IFC file. Will be checked when elevator door extraction is implemented."
        severity := rule.severity, reference := rule.reference }
    | some door_width_mm =>
      let required : ℚ := 800
      if door_width_mm ≥ required then
        { rule_id := rule.id, rule_name := rule.name, status := RuleStatus.PASS
          details := "Elevator door width " ++ fmtNum door_width_mm ++ "mm >= required " ++
            fmtNum required ++ "mm. " ++ rule.description_en
          severity := rule.severity, reference := rule.reference }
      else
        { rule_id := rule.id, rule_name := rule.name, status := RuleStatus.FAIL
          details := "Elevator door width " ++ fmtNum door_width_mm ++ "mm < required " ++
            fmtNum required ++ "mm. " ++ rule.description_en
          severity := rule.severity, reference := rule.reference }

/-- Embedding of `check_emergency_exit_width_rule` (BFS 2024:1 Section 3:51). -/
def check_emergency_exit_width_rule (s : Space) : RuleResult :=
  let rule := RULE_EMERGENCY_EXIT_WIDTH
  let space_type := toLowerAscii (s.type.getD "")
  if space_type ∉ rule.applies_to then
    naResult rule space_type
  else
    match s.emergency_exit_width_mm with
    | none =>
      { rule_id := rule.id, rule_name := rule.name, status := RuleStatus.NOT_CHECKED
        details := "Emergency exit width not available in current IFC file. Will be checked when exit geometry extraction is implemented."
        severity := rule.severity, reference := rule.reference }
    | some width_mm =>
      let required : ℚ := 900
      if width_mm ≥ required then
        { rule_id := rule.id, rule_name := rule.name, status := RuleStatus.PASS
          details := "Emergency exit width " ++ fmtNum width_mm ++ "mm >= required " ++
            fmtNum required ++ "mm. " ++ rule.description_en
          severity := rule.severity, reference := rule.reference }
      else
        { rule_id := rule.id, rule_name := rule.name, status := RuleStatus.FAIL
          details := "Emergency exit width " ++ fmtNum width_mm ++ "mm < required " ++
            fmtNum required ++ "mm. " ++ rule.description_en
          severity := rule.severity, reference := rule.reference }

/-- Embedding of `check_emergency_exit_door_swing_rule` (BFS 2024:1 Section 3:52). -/
def check_emergency_exit_door_swing_rule (s : Space) : RuleResult :=
  let rule := RULE_EMERGENCY_EXIT_DOOR_SWING
  let space_type := toLowerAscii (s.type.getD "")
  if space_type ∉ rule.applies_to then
    naResult rule space_type
  else
    match s.emergency_exit_door_opens_outward with
    | none =>
      { rule_id := rule.id, rule_name := rule.name, status := RuleStatus.NOT_CHECKED
        details := "Emergency exit door swing direction not available in current IFC file. Will be checked when exit door extraction is implemented."
        severity := rule.severity, reference := rule.reference }
    | some opens_outward =>
      if opens_outward then
        { rule_id := rule.id, rule_name := rule.name, status := RuleStatus.PASS
          details := "Emergency exit door opens outward. " ++ rule.description_en
          severity := rule.severity, reference := rule.reference }
      else
        { rule_id := rule.id, rule_name := rule.name, status := RuleStatus.FAIL
          details := "Emergency exit door does not open outward; must open outward for evacuation."
          severity := rule.severity, reference := rule.reference }

/-- Embedding of `check_stair_dimensions_rule` (BFS 2024:1 Section 3:421). -/
def check_stair_dimensions_rule (s : Space) : RuleResult :=
  let rule := RULE_STAIR_DIMENSIONS
  let space_type := toLowerAscii (s.type.getD "")
  if space_type ∉ rule.applies_to then
    naResult rule space_type
  else
    match s.stair_rise_mm, s.stair_run_mm with
    | some rise_mm, some run_mm =>
      let max_rise : ℚ := 150
      let min_run : ℚ := 300
      if rise_mm ≤ max_rise ∧ run_mm ≥ min_run then
        { rule_id := rule.id, rule_name := rule.name, status := RuleStatus.PASS
          details := "Step rise " ++ fmtNum rise_mm ++ "mm <= " ++ fmtNum max_rise ++
            "mm, run " ++ fmtNum run_mm ++ "mm >= " ++ fmtNum min_run ++ "mm. " ++
            rule.description_en
          severity := rule.severity, reference := rule.reference }
      else
        let issues :=
          (if rise_mm > max_rise then
            ["rise " ++ fmtNum rise_mm ++ "mm > max " ++ fmtNum max_rise ++ "mm"] else []) ++
          (if run_mm < min_run then
            ["run " ++ fmtNum run_mm ++ "mm < min " ++ fmtNum min_run ++ "mm"] else [])
        { rule_id := rule.id, rule_name := rule.name, status := RuleStatus.FAIL
          details := "Stair dimensions non-compliant: " ++ String.intercalate "; " issues ++
            ". " ++ rule.description_en
          severity := rule.severity, reference := rule.reference }
    | _, _ =>
      { rule_id := rule.id, rule_name := rule.name, status := RuleStatus.NOT_CHECKED
        details := "Stair step dimensions (rise/run) not available in current IFC file. Will be checked when stair geometry extraction is implemented."
        severity := rule.severity, reference := rule.reference }

/-- Embedding of `check_parking_width_rule` (BFS 2024:1 Section 3:131). -/
def check_parking_width_rule (s : Space) : RuleResult :=
  let rule := RULE_PARKING_WIDTH
  let space_type := toLowerAscii (s.type.getD "")
  if space_type ∉ rule.applies_to then
    naResult rule space_type
  else
    match s.parking_width_mm with
    | none =>
      { rule_id := rule.id, rule_name := rule.name, status := RuleStatus.NOT_CHECKED
        details := "Parking space width not available in current IFC file. Will be checked when parking geometry extraction is implemented."
        severity := rule.severity, reference := rule.reference }
    | some width_mm =>
      let required : ℚ := 3600
      if width_mm ≥ required then
        { rule_id := rule.id, rule_name := rule.name, status := RuleStatus.PASS
          details := "Parking width " ++ fmtNum width_mm ++ "mm >= required " ++
            fmtNum required ++ "mm. " ++ rule.description_en
          severity := rule.severity, reference := rule.reference }
      else
        { rule_id := rule.id, rule_name := rule.name, status := RuleStatus.FAIL
          details := "Parking width " ++ fmtNum width_mm ++ "mm < required " ++
            fmtNum required ++ "mm. " ++ rule.description_en
          severity := rule.severity, reference := rule.reference }

/-- Embedding of `check_parking_length_rule` (BFS 2024:1 Section 3:132). -/
def check_parking_length_rule (s : Space) : RuleResult :=
  let rule := RULE_PARKING_LENGTH
  let space_type := toLowerAscii (s.type.getD "")
  if space_type ∉ rule.applies_to then
    naResult rule space_type
  else
    match s.parking_length_mm with
    | none =>
      { rule_id := rule.id, rule_name := rule.name, status := RuleStatus.NOT_CHECKED
        details := "Parking space length not available in current IFC file. Will be checked when parking geometry extraction is implemented."
        severity := rule.severity, reference := rule.reference }
    | some length_mm =>
      let required : ℚ := 5000
      if length_mm ≥ required then
        { rule_id := rule.id, rule_name := rule.name, status := RuleStatus.PASS
          details := "Parking length " ++ fmtNum length_mm ++ "mm >= required " ++
            fmtNum required ++ "mm. " ++ rule.description_en
          severity := rule.severity, reference := rule.reference }
      else
        { rule_id := rule.id, rule_name := rule.name, status := RuleStatus.FAIL
          details := "Parking length " ++ fmtNum length_mm ++ "mm < required " ++
            fmtNum required ++ "mm. " ++ rule.description_en
          severity := rule.severity, reference := rule.reference }

/-- Embedding of `check_stair_handrail_both_rule` (BFS 2024:1 Section 3:411). -/
def check_stair_handrail_both_rule (s : Space) : RuleResult :=
  let rule := RULE_STAIR_HANDRAIL_BOTH
  let space_type := toLowerAscii (s.type.getD "")
  if space_type ∉ rule.applies_to then
    naResult rule space_type
  else
    match s.stair_handrail_both_sides with
    | none =>
      { rule_id := rule.id, rule_name := rule.name, status := RuleStatus.NOT_CHECKED
        details := "Stair handrail configuration not available in current IFC file. Will be checked when railing extraction is implemented."
        severity := rule.severity, reference := rule.reference }
    | some both_sides =>
      if both_sides then
        { rule_id := rule.id, rule_name := rule.name, status := RuleStatus.PASS
          details := "Stair has handrails on both sides. " ++ rule.description_en
          severity := rule.severity, reference := rule.reference }
      else
        { rule_id := rule.id, rule_name := rule.name, status := RuleStatus.FAIL
          details := "Stair must have handrails on both sides."
          severity := rule.severity, reference := rule.reference }

/-- Embedding of `check_stair_width_rule` (BFS 2024:1 Section 3:412). -/
def check_stair_width_rule (s : Space) : RuleResult :=
  let rule := RULE_STAIR_WIDTH
  let space_type := toLowerAscii (s.type.getD "")
  if space_type ∉ rule.applies_to then
    naResult rule space_type
  else
    match s.stair_width_mm with
    | none =>
      { rule_id := rule.id, rule_name := rule.name, status := RuleStatus.NOT_CHECKED
        details := "Stair width not available in current IFC file. Will be checked when stair geometry extraction is implemented."
        severity := rule.severity, reference := rule.reference }
    | some width_mm =>
      let required : ℚ := 1200
      if width_mm ≥ required then
        { rule_id := rule.id, rule_name := rule.name, status := RuleStatus.PASS
          details := "Stair width " ++ fmtNum width_mm ++ "mm >= required " ++
            fmtNum required ++ "mm. " ++ rule.description_en
          severity := rule.severity, reference := rule.reference }
      else
        { rule_id := rule.id, rule_name := rule.name, status := RuleStatus.FAIL
          details := "Stair width " ++ fmtNum width_mm ++ "mm < required " ++
            fmtNum required ++ "mm. " ++ rule.description_en
          severity := rule.severity, reference := rule.reference }

/-- Embedding of `check_window_sill_height_rule` (BFS 2024:1 Section 3:531). -/
def check_window_sill_height_rule (s : Space) : RuleResult :=
  let rule := RULE_WINDOW_SILL_HEIGHT
  let space_type := toLowerAscii (s.type.getD "")
  if space_type ∉ rule.applies_to then
    naResult rule space_type
  else
    match s.window_sill_height_mm with
    | none =>
      { rule_id := rule.id, rule_name := rule.name, status := RuleStatus.NOT_CHECKED
        details := "Window sill height not available in current IFC file. Will be checked when window extraction is implemented."
        severity := rule.severity, reference := rule.reference }
    | some sill_height_mm =>
      let max_height : ℚ := 600
      if sill_height_mm ≤ max_height then
        { rule_id := rule.id, rule_name := rule.name, status := RuleStatus.PASS
          details := "Window sill height " ++ fmtNum sill_height_mm ++ "mm <= max " ++
            fmtNum max_height ++ "mm. " ++ rule.description_en
          severity := rule.severity, reference := rule.reference }
      else
        { rule_id := rule.id, rule_name := rule.name, status := RuleStatus.FAIL
          details := "Window sill height " ++ fmtNum sill_height_mm ++ "mm > max " ++
            fmtNum max_height ++ "mm. " ++ rule.description_en
          severity := rule.severity, reference := rule.reference }

/-- Embedding of `check_window_opening_size_rule` (BFS 2024:1 Section 3:532). -/
def check_window_opening_size_rule (s : Space) : RuleResult :=
  let rule := RULE_WINDOW_OPENING_SIZE
  let space_type := toLowerAscii (s.type.getD "")
  if space_type ∉ rule.applies_to then
    naResult rule space_type
  else
    match s.window_opening_width_mm, s.window_opening_height_mm with
    | some width_mm, some height_mm =>
      let min_width : ℚ := 900
      let min_height : ℚ := 1200
      if width_mm ≥ min_width ∧ height_mm ≥ min_height then
        { rule_id := rule.id, rule_name := rule.name, status := RuleStatus.PASS
          details := "Window opening " ++ fmtNum width_mm ++ "mm x " ++ fmtNum height_mm ++
            "mm >= required " ++ fmtNum min_width ++ "mm x " ++ fmtNum min_height ++
            "mm. " ++ rule.description_en
          severity := rule.severity, reference := rule.reference }
      else
        let issues :=
          (if width_mm < min_width then
            ["width " ++ fmtNum width_mm ++ "mm < " ++ fmtNum min_width ++ "mm"] else []) ++
          (if height_mm < min_height then
            ["height " ++ fmtNum height_mm ++ "mm < " ++ fmtNum min_height ++ "mm"] else [])
        { rule_id := rule.id, rule_name := rule.name, status := RuleStatus.FAIL
          details := "Window opening insufficient: " ++ String.intercalate "; " issues ++
            ". " ++ rule.description_en
          severity := rule.severity, reference := rule.reference }
    | _, _ =>
      { rule_id := rule.id, rule_name := rule.name, status := RuleStatus.NOT_CHECKED
        details := "Window opening dimensions not available in current IFC file. Will be checked when window extraction is implemented."
        severity := rule.severity, reference := rule.reference }

/-- Embedding of `check_tactile_guidance_rule` (BFS 2024:1 Section 3:611). -/
def check_tactile_guidance_rule (s : Space) : RuleResult :=
  let rule := RULE_TACTILE_GUIDANCE
  let space_type := toLowerAscii (s.type.getD "")
  if space_type ∉ rule.applies_to then
    naResult rule space_type
  else
    match s.tactile_guidance_present with
    | none =>
      { rule_id := rule.id, rule_name := rule.name, status := RuleStatus.NOT_CHECKED
        details := "Tactile floor guidance data not available in current IFC file. Will be checked when floor finish/guidance extraction is implemented."
        severity := rule.severity, reference := rule.reference }
    | some has_guidance =>
      if has_guidance then
        { rule_id := rule.id, rule_name := rule.name, status := RuleStatus.PASS
          details := "Tactile floor guidance present. " ++ rule.description_en
          severity := rule.severity, reference := rule.reference }
      else
        { rule_id := rule.id, rule_name := rule.name, status := RuleStatus.FAIL
          details := "Tactile floor guidance required for visually impaired in this public area."
          severity := rule.severity, reference := rule.reference }

/-- Embedding of `_validate_space_dict`: raise (return an error) when the
mandatory `id` or `type` keys are missing. -/
def validate_space_dict (s : Space) : Except String Unit :=
  let missing :=
    (if s.id.isNone then ["id"] else []) ++ (if s.type.isNone then ["type"] else [])
  if missing.isEmpty then Except.ok ()
  else Except.error ("ValueError: Space dictionary missing required fields: " ++
    String.intercalate ", " missing)

/-- Embedding of `_calculate_overall_status`: ERROR if any rule errored, else
FAIL if any CRITICAL rule failed, else PARTIAL if any rule is NOT_CHECKED or
any WARNING rule failed, else PASS. -/
def calculate_overall_status (rule_results : List RuleResult) : OverallStatus :=
  if rule_results.any (fun r => r.status == RuleStatus.ERROR) then
    OverallStatus.ERROR
  else
    let critical_fails := rule_results.filter
      (fun r => r.status == RuleStatus.FAIL && r.severity == Severity.CRITICAL)
    if ! critical_fails.isEmpty then
      OverallStatus.FAIL
    else
      let has_not_checked := rule_results.any (fun r => r.status == RuleStatus.NOT_CHECKED)
      let has_warning_fails := rule_results.any
        (fun r => r.status == RuleStatus.FAIL && r.severity == Severity.WARNING)
      if has_not_checked || has_warning_fails then
        OverallStatus.PARTIAL
      else
        OverallStatus.PASS

/-- Embedding of `check_compliance`: validate the space record, evaluate all
20 catalogue rules in order, then compute the counts and the aggregated
overall status. The ramp-slope check is fallible (ZeroDivisionError), so the
whole evaluation is. -/
def check_compliance (space_dict : Space) (geometry_result : Option GeomResult) :
    Except String ComplianceResult := do
  validate_space_dict space_dict
  let space_id := space_dict.id.getD "unknown"
  let space_name := space_dict.name.getD "Unnamed Space"
  let space_type := toLowerAscii (space_dict.type.getD "unknown")
  let r1 := check_turning_circle_rule space_dict geometry_result
  let r2 := check_door_width_rule space_dict
  let r3 := check_threshold_rule space_dict
  let r4 := check_corridor_width_rule space_dict
  let r5 ← check_ramp_slope_rule space_dict
  let r6 := check_handrail_height_rule space_dict
  let r7 := check_bathroom_door_swing_rule space_dict
  let r8 := check_rest_area_25m_rule space_dict
  let r9 := check_elevator_size_rule space_dict
  let r10 := check_elevator_door_width_rule space_dict
  let r11 := check_emergency_exit_width_rule space_dict
  let r12 := check_emergency_exit_door_swing_rule space_dict
  let r13 := check_stair_dimensions_rule space_dict
  let r14 := check_parking_width_rule space_dict
  let r15 := check_parking_length_rule space_dict
  let r16 := check_stair_handrail_both_rule space_dict
  let r17 := check_stair_width_rule space_dict
  let r18 := check_window_sill_height_rule space_dict
  let r19 := check_window_opening_size_rule space_dict
  let r20 := check_tactile_guidance_rule space_dict
  let rule_results := [r1, r2, r3, r4, r5, r6, r7, r8, r9, r10,
                       r11, r12, r13, r14, r15, r16, r17, r18, r19, r20]
  let passed := rule_results.countP (fun r => r.status == RuleStatus.PASS)
  let failed := rule_results.countP (fun r => r.status == RuleStatus.FAIL)
  let not_checked := rule_results.countP (fun r => r.status == RuleStatus.NOT_CHECKED)
  let overall_status := calculate_overall_status rule_results
  Except.ok
    { space_id := space_id
      space_name := space_name
      space_type := space_type
      overall_status := overall_status
      rules_checked := rule_results
      passed_count := passed
      failed_count := failed
      not_checked_count := not_checked }

/-- Embedding of the ramp-slope extraction step of `parser.py` (the
`Slope`/`Gradient` property handling): a numeric value `r` greater than 1 and
at most 100 is read as a percentage and divided by 100; the result is stored
as the `ramp_slope_ratio` attribute only when it lies in `[0, 1]`. -/
def extract_ramp_slope (r : ℚ) : Option ℚ :=
  let r2 := if 1 < r ∧ r ≤ 100 then r / 100 else r
  if 0 ≤ r2 ∧ r2 ≤ 1 then some r2 else none

/-- The 20 rule results built by `check_compliance`, with the fallible
ramp-slope result abstracted as a parameter. -/
def engineResults (s : Space) (g : Option GeomResult) (r5 : RuleResult) :
    List RuleResult :=
  [check_turning_circle_rule s g, check_door_width_rule s, check_threshold_rule s,
   check_corridor_width_rule s, r5, check_handrail_height_rule s,
   check_bathroom_door_swing_rule s, check_rest_area_25m_rule s,
   check_elevator_size_rule s, check_elevator_door_width_rule s,
   check_emergency_exit_width_rule s, check_emergency_exit_door_swing_rule s,
   check_stair_dimensions_rule s, check_parking_width_rule s,
   check_parking_length_rule s, check_stair_handrail_both_rule s,
   check_stair_width_rule s, check_window_sill_height_rule s,
   check_window_opening_size_rule s, check_tactile_guidance_rule s]

/-- Fixed concrete inputs used by witness instantiations: a bathroom with a
3000mm x 2500mm rectangular boundary, and a passing feasibility result for
it. -/
def spaceW : Space :=
  { id := some "space_001"
    name := some "Main Bathroom"
    type := some "bathroom"
    boundary := some [⟨0, 0⟩, ⟨3000, 0⟩, ⟨3000, 2500⟩, ⟨0, 2500⟩] }

def geomW : GeomResult :=
  { space_id := "space_001"
    space_name := "Main Bathroom"
    passed := true
    circle_diameter_mm := 1500
    circle_center := some ⟨1500, 1250⟩
    collision_details := none }

/-- The compliance result the engine computes for the witness inputs. -/
def resW : ComplianceResult :=
  match check_compliance spaceW (some geomW) with
  | Except.ok r => r
  | Except.error _ =>
    { space_id := "", space_name := "", space_type := ""
      overall_status := OverallStatus.ERROR, rules_checked := []
      passed_count := 0, failed_count := 0, not_checked_count := 0 }

/-- A ramp room record with mandatory id and type present and a stored slope
of exactly 0 (a flat ramp, as the extractor may store for a Slope property
of 0). -/
def rampZero : Space :=
  { id := some "ramp_001", type := some "ramp", ramp_slope_ratio := some 0 }

/-- A rule result that reports NOT_APPLICABLE and names the (lowercased)
room type in its details. -/
def naLike (r : RuleResult) (ty : String) : Prop :=
  r.status = RuleStatus.NOT_APPLICABLE ∧
    r.details = "Rule does not apply to space type: " ++ ty

/-- A kitchen: a room type that is in no rule's applicable set. -/
def kitchenSpace : Space :=
  { id := some "space_003", name := some "Kitchen", type := some "Kitchen"
    boundary := some [⟨0, 0⟩, ⟨4000, 0⟩, ⟨4000, 3000⟩, ⟨0, 3000⟩]
    corridor_width_mm := some 100, door_opens_outward := some false }

/-- A feasibility result whose embedded space id matches no witness room. -/
def gBadId : GeomResult := { geomW with space_id := "space_999" }

/-- A space whose boundary has only two points. -/
def twoPointSpace : Space :=
  { id := some "space_007", name := some "Invalid Polygon", type := some "bathroom"
    boundary := some [⟨0, 0⟩, ⟨1000, 0⟩] }

/-- A ramp room whose stored slope is the percentage figure 8 rather than
the ratio 0.08. -/
def rampEight : Space :=
  { id := some "ramp_008", type := some "ramp", ramp_slope_ratio := some 8 }

/-- A bathroom record with mandatory id and type but no boundary. -/
def bathroomNoBoundary : Space := { id := some "space_010", type := some "bathroom" }

def corridorE : Space := { id := some "ce", type := some "corridor" }

def rampE : Space := { id := some "re", type := some "ramp" }

def stairE : Space := { id := some "se", type := some "stair" }

def elevatorE : Space := { id := some "ee", type := some "elevator" }

def exitE : Space := { id := some "xe", type := some "exit" }

def parkingE : Space := { id := some "pe", type := some "parking" }

def roomE : Space := { id := some "me", type := some "room" }

/-- A room whose boundary is a 1000mm square. -/
def smallSquareSpace : Space :=
  { id := some "space_sq", type := some "bathroom"
    boundary := some [⟨0, 0⟩, ⟨1000, 0⟩, ⟨1000, 1000⟩, ⟨0, 1000⟩] }

/-- A space record missing both mandatory fields. -/
def noIdSpace : Space := { name := some "Nameless" }

/-- A filter by a weaker predicate does not change `any`. -/
theorem any_filter_of_imp {α : Type} (q p : α → Bool)
    (h : ∀ a, p a = true → q a = true) (l : List α) :
    (l.filter q).any p = l.any p := by
  induction l with
  | nil => rfl
  | cons a t ih =>
    by_cases hq : q a = true
    · simp [List.filter_cons, hq, ih]
    · have hpa : p a = false := by
        cases hpa : p a
        · rfl
        · exact absurd (h a hpa) hq
      simp only [Bool.not_eq_true] at hq
      simp [List.filter_cons, hq, hpa, ih]

/-- A filtered list is empty exactly when no element satisfies the filter. -/
theorem isEmpty_filter_eq_not_any {α : Type} (p : α → Bool) (l : List α) :
    (l.filter p).isEmpty = ! l.any p := by
  induction l with
  | nil => rfl
  | cons a t ih => cases hpa : p a <;> simp [List.filter_cons, hpa, ih]

/-- The aggregation, rewritten as nested conditionals over the
`any`-conditions of its four tiers. -/
theorem calc_overall_cases (rs : List RuleResult) :
    calculate_overall_status rs =
      if rs.any (fun r => r.status == RuleStatus.ERROR) then OverallStatus.ERROR
      else if rs.any (fun r => r.status == RuleStatus.FAIL && r.severity == Severity.CRITICAL) then
        OverallStatus.FAIL
      else if rs.any (fun r => r.status == RuleStatus.NOT_CHECKED) ||
          rs.any (fun r => r.status == RuleStatus.FAIL && r.severity == Severity.WARNING) then
        OverallStatus.PARTIAL
      else OverallStatus.PASS := by
  unfold calculate_overall_status
  simp only [isEmpty_filter_eq_not_any, Bool.not_not]

/-- Characterisation of the ERROR tier of the aggregation precedence. -/
theorem overall_eq_ERROR_iff (rs : List RuleResult) :
    calculate_overall_status rs = OverallStatus.ERROR ↔
      ∃ r ∈ rs, r.status = RuleStatus.ERROR := by
  rw [calc_overall_cases]
  simp only [List.any_eq_true, beq_iff_eq, Bool.and_eq_true, Bool.or_eq_true]
  split_ifs with h1 h2 h3
  · exact iff_of_true rfl h1
  · exact iff_of_false (by decide) h1
  · exact iff_of_false (by decide) h1
  · exact iff_of_false (by decide) h1

/-- Characterisation of the FAIL tier of the aggregation precedence. -/
theorem overall_eq_FAIL_iff (rs : List RuleResult) :
    calculate_overall_status rs = OverallStatus.FAIL ↔
      (¬ ∃ r ∈ rs, r.status = RuleStatus.ERROR) ∧
        ∃ r ∈ rs, r.status = RuleStatus.FAIL ∧ r.severity = Severity.CRITICAL := by
  rw [calc_overall_cases]
  simp only [List.any_eq_true, beq_iff_eq, Bool.and_eq_true, Bool.or_eq_true]
  split_ifs with h1 h2 h3
  · exact iff_of_false (by decide) (fun h => h.1 h1)
  · exact iff_of_true rfl ⟨h1, h2⟩
  · exact iff_of_false (by decide) (fun h => h2 h.2)
  · exact iff_of_false (by decide) (fun h => h2 h.2)

/-- Characterisation of the PARTIAL tier of the aggregation precedence. -/
theorem overall_eq_PARTIAL_iff (rs : List RuleResult) :
    calculate_overall_status rs = OverallStatus.PARTIAL ↔
      (¬ ∃ r ∈ rs, r.status = RuleStatus.ERROR) ∧
        (¬ ∃ r ∈ rs, r.status = RuleStatus.FAIL ∧ r.severity = Severity.CRITICAL) ∧
        ((∃ r ∈ rs, r.status = RuleStatus.NOT_CHECKED) ∨
          ∃ r ∈ rs, r.status = RuleStatus.FAIL ∧ r.severity = Severity.WARNING) := by
  rw [calc_overall_cases]
  simp only [List.any_eq_true, beq_iff_eq, Bool.and_eq_true, Bool.or_eq_true]
  split_ifs with h1 h2 h3
  · exact iff_of_false (by decide) (fun h => h.1 h1)
  · exact iff_of_false (by decide) (fun h => h.2.1 h2)
  · exact iff_of_true rfl ⟨h1, h2, h3⟩
  · exact iff_of_false (by decide) (fun h => h3 h.2.2)

/-- Characterisation of the PASS tier of the aggregation precedence. -/
theorem overall_eq_PASS_iff (rs : List RuleResult) :
    calculate_overall_status rs = OverallStatus.PASS ↔
      (¬ ∃ r ∈ rs, r.status = RuleStatus.ERROR) ∧
        (¬ ∃ r ∈ rs, r.status = RuleStatus.FAIL ∧ r.severity = Severity.CRITICAL) ∧
        (¬ ∃ r ∈ rs, r.status = RuleStatus.NOT_CHECKED) ∧
        (¬ ∃ r ∈ rs, r.status = RuleStatus.FAIL ∧ r.severity = Severity.WARNING) := by
  rw [calc_overall_cases]
  simp only [List.any_eq_true, beq_iff_eq, Bool.and_eq_true, Bool.or_eq_true]
  split_ifs with h1 h2 h3
  · exact iff_of_false (by decide) (fun h => h.1 h1)
  · exact iff_of_false (by decide) (fun h => h.2.1 h2)
  · exact iff_of_false (by decide) (fun h => h3.elim h.2.2.1 h.2.2.2)
  · exact iff_of_true rfl ⟨h1, h2, (not_or.mp h3).1, (not_or.mp h3).2⟩

/-- Dropping NOT_APPLICABLE results changes none of the aggregation
conditions, hence not the aggregate status. -/
theorem overall_filter_not_applicable (rs : List RuleResult) :
    calculate_overall_status
        (rs.filter (fun r => r.status != RuleStatus.NOT_APPLICABLE)) =
      calculate_overall_status rs := by
  rw [calc_overall_cases, calc_overall_cases,
    any_filter_of_imp _ _ (by intro r h; simp only [beq_iff_eq] at h; simp [h]),
    any_filter_of_imp _ _ (by intro r h; simp only [Bool.and_eq_true, beq_iff_eq] at h; simp [h.1]),
    any_filter_of_imp _ _ (by intro r h; simp only [beq_iff_eq] at h; simp [h]),
    any_filter_of_imp _ _ (by intro r h; simp only [Bool.and_eq_true, beq_iff_eq] at h; simp [h.1])]

/-- The overall status reported by `check_compliance` is the aggregation of
the 20 rule results it returns. -/
theorem check_compliance_overall (s : Space) (g : Option GeomResult)
    (res : ComplianceResult) (h : check_compliance s g = Except.ok res) :
    res.overall_status = calculate_overall_status res.rules_checked ∧
      res.rules_checked.length = 20 := by
  unfold check_compliance at h
  cases hv : validate_space_dict s <;> rw [hv] at h <;>
    simp only [Bind.bind, Except.bind] at h
  · exact Except.noConfusion h
  · cases hr : check_ramp_slope_rule s <;> rw [hr] at h
    · exact Except.noConfusion h
    · simp only [Except.ok.injEq] at h
      subst h
      exact ⟨rfl, rfl⟩

/-- Symbolic evaluation of `check_compliance` once the validation and the
ramp-slope check are known to succeed. -/
theorem check_compliance_ok_of (s : Space) (g : Option GeomResult) (r5 : RuleResult)
    (hval : validate_space_dict s = Except.ok ())
    (hramp : check_ramp_slope_rule s = Except.ok r5) :
    check_compliance s g = Except.ok
      { space_id := s.id.getD "unknown"
        space_name := s.name.getD "Unnamed Space"
        space_type := toLowerAscii (s.type.getD "unknown")
        overall_status := calculate_overall_status (engineResults s g r5)
        rules_checked := engineResults s g r5
        passed_count := (engineResults s g r5).countP (fun r => r.status == RuleStatus.PASS)
        failed_count := (engineResults s g r5).countP (fun r => r.status == RuleStatus.FAIL)
        not_checked_count :=
          (engineResults s g r5).countP (fun r => r.status == RuleStatus.NOT_CHECKED) } := by
  unfold check_compliance
  rw [hval, hramp]
  rfl

/-- The witness evaluation succeeds and returns `resW`. -/
theorem resW_spec : check_compliance spaceW (some geomW) = Except.ok resW := by
  have h := check_compliance_ok_of spaceW (some geomW)
    (naResult RULE_RAMP_SLOPE "bathroom") rfl rfl
  rw [h]
  unfold resW
  rw [h]

/-- On a zero slope the ramp rule's pass branch divides by the slope while
rendering its details and raises ZeroDivisionError. -/
theorem check_ramp_slope_rule_rampZero :
    check_ramp_slope_rule rampZero =
      Except.error "ZeroDivisionError: float division by zero" := by
  unfold check_ramp_slope_rule
  rw [if_neg (by decide)]
  show (if (0 : ℚ) ≤ 1 / 12 then _ else _) = _
  rw [if_pos (by norm_num)]
  unfold pyDiv
  rw [if_pos rfl]
  rfl

/-- The ZeroDivisionError escapes `check_compliance` for the flat ramp. -/
theorem check_compliance_rampZero :
    check_compliance rampZero none =
      Except.error "ZeroDivisionError: float division by zero" := by
  unfold check_compliance
  rw [show validate_space_dict rampZero = Except.ok () from rfl,
    check_ramp_slope_rule_rampZero]
  rfl

theorem rule_id_turning_circle (s : Space) (g : Option GeomResult) :
    (check_turning_circle_rule s g).rule_id = RULE_TURNING_CIRCLE.id := by
  simp only [check_turning_circle_rule]
  (repeat' split) <;> rfl

theorem rule_id_door_width (s : Space) :
    (check_door_width_rule s).rule_id = RULE_DOOR_WIDTH.id := by
  simp only [check_door_width_rule]
  (repeat' split) <;> rfl

theorem rule_id_threshold (s : Space) :
    (check_threshold_rule s).rule_id = RULE_THRESHOLD.id := by
  simp only [check_threshold_rule]
  (repeat' split) <;> rfl

theorem rule_id_corridor_width (s : Space) :
    (check_corridor_width_rule s).rule_id = RULE_CORRIDOR_WIDTH.id := by
  simp only [check_corridor_width_rule]
  (repeat' split) <;> rfl

theorem rule_id_ramp_slope (s : Space) (r : RuleResult)
    (h : check_ramp_slope_rule s = Except.ok r) :
    r.rule_id = RULE_RAMP_SLOPE.id := by
  unfold check_ramp_slope_rule at h
  repeat' split at h
  all_goals
    simp only [Bind.bind, Except.bind, pyDiv] at h
  repeat' split at h
  all_goals
    first
    | exact Except.noConfusion h
    | (rw [Except.ok.injEq] at h; subst h; rfl)

theorem rule_id_handrail_height (s : Space) :
    (check_handrail_height_rule s).rule_id = RULE_HANDRAIL_HEIGHT.id := by
  simp only [check_handrail_height_rule]
  (repeat' split) <;> rfl

theorem rule_id_bathroom_door_swing (s : Space) :
    (check_bathroom_door_swing_rule s).rule_id = RULE_BATHROOM_DOOR_SWING.id := by
  simp only [check_bathroom_door_swing_rule]
  (repeat' split) <;> rfl

theorem rule_id_rest_area (s : Space) :
    (check_rest_area_25m_rule s).rule_id = RULE_REST_AREA_25M.id := by
  simp only [check_rest_area_25m_rule]
  (repeat' split) <;> rfl

theorem rule_id_elevator_size (s : Space) :
    (check_elevator_size_rule s).rule_id = RULE_ELEVATOR_SIZE.id := by
  simp only [check_elevator_size_rule]
  (repeat' split) <;> rfl

theorem rule_id_elevator_door (s : Space) :
    (check_elevator_door_width_rule s).rule_id = RULE_ELEVATOR_DOOR_WIDTH.id := by
  simp only [check_elevator_door_width_rule]
  (repeat' split) <;> rfl

theorem rule_id_exit_width (s : Space) :
    (check_emergency_exit_width_rule s).rule_id = RULE_EMERGENCY_EXIT_WIDTH.id := by
  simp only [check_emergency_exit_width_rule]
  (repeat' split) <;> rfl

theorem rule_id_exit_door_swing (s : Space) :
    (check_emergency_exit_door_swing_rule s).rule_id = RULE_EMERGENCY_EXIT_DOOR_SWING.id := by
  simp only [check_emergency_exit_door_swing_rule]
  (repeat' split) <;> rfl

theorem rule_id_stair_dimensions (s : Space) :
    (check_stair_dimensions_rule s).rule_id = RULE_STAIR_DIMENSIONS.id := by
  simp only [check_stair_dimensions_rule]
  (repeat' split) <;> rfl

theorem rule_id_parking_width (s : Space) :
    (check_parking_width_rule s).rule_id = RULE_PARKING_WIDTH.id := by
  simp only [check_parking_width_rule]
  (repeat' split) <;> rfl

theorem rule_id_parking_length (s : Space) :
    (check_parking_length_rule s).rule_id = RULE_PARKING_LENGTH.id := by
  simp only [check_parking_length_rule]
  (repeat' split) <;> rfl

theorem rule_id_stair_handrail (s : Space) :
    (check_stair_handrail_both_rule s).rule_id = RULE_STAIR_HANDRAIL_BOTH.id := by
  simp only [check_stair_handrail_both_rule]
  (repeat' split) <;> rfl

theorem rule_id_stair_width (s : Space) :
    (check_stair_width_rule s).rule_id = RULE_STAIR_WIDTH.id := by
  simp only [check_stair_width_rule]
  (repeat' split) <;> rfl

theorem rule_id_window_sill (s : Space) :
    (check_window_sill_height_rule s).rule_id = RULE_WINDOW_SILL_HEIGHT.id := by
  simp only [check_window_sill_height_rule]
  (repeat' split) <;> rfl

theorem rule_id_window_opening (s : Space) :
    (check_window_opening_size_rule s).rule_id = RULE_WINDOW_OPENING_SIZE.id := by
  simp only [check_window_opening_size_rule]
  (repeat' split) <;> rfl

theorem rule_id_tactile (s : Space) :
    (check_tactile_guidance_rule s).rule_id = RULE_TACTILE_GUIDANCE.id := by
  simp only [check_tactile_guidance_rule]
  (repeat' split) <;> rfl

/-- The rule identifiers of the 20 engine results are exactly the catalogue
identifiers, in catalogue order. -/
theorem engineResults_rule_ids (s : Space) (g : Option GeomResult) (r5 : RuleResult)
    (h5 : r5.rule_id = RULE_RAMP_SLOPE.id) :
    (engineResults s g r5).map RuleResult.rule_id = catalogueRuleIds := by
  simp only [engineResults, catalogueRuleIds, rulesCatalogue, List.map_cons,
    List.map_nil, List.cons.injEq, and_true]
  exact ⟨rule_id_turning_circle s g, rule_id_door_width s, rule_id_threshold s,
    rule_id_corridor_width s, h5, rule_id_handrail_height s,
    rule_id_bathroom_door_swing s, rule_id_rest_area s, rule_id_elevator_size s,
    rule_id_elevator_door s, rule_id_exit_width s, rule_id_exit_door_swing s,
    rule_id_stair_dimensions s, rule_id_parking_width s, rule_id_parking_length s,
    rule_id_stair_handrail s, rule_id_stair_width s, rule_id_window_sill s,
    rule_id_window_opening s, rule_id_tactile s⟩

theorem na_turning_circle (s : Space) (g : Option GeomResult)
    (h : toLowerAscii (s.type.getD "") ∉ RULE_TURNING_CIRCLE.applies_to) :
    check_turning_circle_rule s g = naResult RULE_TURNING_CIRCLE (toLowerAscii (s.type.getD "")) := by
  simp only [check_turning_circle_rule]
  rw [if_pos h]

theorem na_door_width (s : Space)
    (h : toLowerAscii (s.type.getD "") ∉ RULE_DOOR_WIDTH.applies_to) :
    check_door_width_rule s = naResult RULE_DOOR_WIDTH (toLowerAscii (s.type.getD "")) := by
  simp only [check_door_width_rule]
  rw [if_pos h]

theorem na_threshold (s : Space)
    (h : toLowerAscii (s.type.getD "") ∉ RULE_THRESHOLD.applies_to) :
    check_threshold_rule s = naResult RULE_THRESHOLD (toLowerAscii (s.type.getD "")) := by
  simp only [check_threshold_rule]
  rw [if_pos h]

theorem na_corridor_width (s : Space)
    (h : toLowerAscii (s.type.getD "") ∉ RULE_CORRIDOR_WIDTH.applies_to) :
    check_corridor_width_rule s = naResult RULE_CORRIDOR_WIDTH (toLowerAscii (s.type.getD "")) := by
  simp only [check_corridor_width_rule]
  rw [if_pos h]

theorem na_ramp_slope (s : Space)
    (h : toLowerAscii (s.type.getD "") ∉ RULE_RAMP_SLOPE.applies_to) :
    check_ramp_slope_rule s = Except.ok (naResult RULE_RAMP_SLOPE (toLowerAscii (s.type.getD ""))) := by
  simp only [check_ramp_slope_rule]
  rw [if_pos h]

theorem na_handrail_height (s : Space)
    (h : toLowerAscii (s.type.getD "") ∉ RULE_HANDRAIL_HEIGHT.applies_to) :
    check_handrail_height_rule s = naResult RULE_HANDRAIL_HEIGHT (toLowerAscii (s.type.getD "")) := by
  simp only [check_handrail_height_rule]
  rw [if_pos h]

theorem na_bathroom_door_swing (s : Space)
    (h : toLowerAscii (s.type.getD "") ∉ RULE_BATHROOM_DOOR_SWING.applies_to) :
    check_bathroom_door_swing_rule s = naResult RULE_BATHROOM_DOOR_SWING (toLowerAscii (s.type.getD "")) := by
  simp only [check_bathroom_door_swing_rule]
  rw [if_pos h]

theorem na_rest_area (s : Space)
    (h : toLowerAscii (s.type.getD "") ∉ RULE_REST_AREA_25M.applies_to) :
    check_rest_area_25m_rule s = naResult RULE_REST_AREA_25M (toLowerAscii (s.type.getD "")) := by
  simp only [check_rest_area_25m_rule]
  rw [if_pos h]

theorem na_elevator_size (s : Space)
    (h : toLowerAscii (s.type.getD "") ∉ RULE_ELEVATOR_SIZE.applies_to) :
    check_elevator_size_rule s = naResult RULE_ELEVATOR_SIZE (toLowerAscii (s.type.getD "")) := by
  simp only [check_elevator_size_rule]
  rw [if_pos h]

theorem na_elevator_door (s : Space)
    (h : toLowerAscii (s.type.getD "") ∉ RULE_ELEVATOR_DOOR_WIDTH.applies_to) :
    check_elevator_door_width_rule s = naResult RULE_ELEVATOR_DOOR_WIDTH (toLowerAscii (s.type.getD "")) := by
  simp only [check_elevator_door_width_rule]
  rw [if_pos h]

theorem na_exit_width (s : Space)
    (h : toLowerAscii (s.type.getD "") ∉ RULE_EMERGENCY_EXIT_WIDTH.applies_to) :
    check_emergency_exit_width_rule s = naResult RULE_EMERGENCY_EXIT_WIDTH (toLowerAscii (s.type.getD "")) := by
  simp only [check_emergency_exit_width_rule]
  rw [if_pos h]

theorem na_exit_door_swing (s : Space)
    (h : toLowerAscii (s.type.getD "") ∉ RULE_EMERGENCY_EXIT_DOOR_SWING.applies_to) :
    check_emergency_exit_door_swing_rule s = naResult RULE_EMERGENCY_EXIT_DOOR_SWING (toLowerAscii (s.type.getD "")) := by
  simp only [check_emergency_exit_door_swing_rule]
  rw [if_pos h]

theorem na_stair_dimensions (s : Space)
    (h : toLowerAscii (s.type.getD "") ∉ RULE_STAIR_DIMENSIONS.applies_to) :
    check_stair_dimensions_rule s = naResult RULE_STAIR_DIMENSIONS (toLowerAscii (s.type.getD "")) := by
  simp only [check_stair_dimensions_rule]
  rw [if_pos h]

theorem na_parking_width (s : Space)
    (h : toLowerAscii (s.type.getD "") ∉ RULE_PARKING_WIDTH.applies_to) :
    check_parking_width_rule s = naResult RULE_PARKING_WIDTH (toLowerAscii (s.type.getD "")) := by
  simp only [check_parking_width_rule]
  rw [if_pos h]

theorem na_parking_length (s : Space)
    (h : toLowerAscii (s.type.getD "") ∉ RULE_PARKING_LENGTH.applies_to) :
    check_parking_length_rule s = naResult RULE_PARKING_LENGTH (toLowerAscii (s.type.getD "")) := by
  simp only [check_parking_length_rule]
  rw [if_pos h]

theorem na_stair_handrail (s : Space)
    (h : toLowerAscii (s.type.getD "") ∉ RULE_STAIR_HANDRAIL_BOTH.applies_to) :
    check_stair_handrail_both_rule s = naResult RULE_STAIR_HANDRAIL_BOTH (toLowerAscii (s.type.getD "")) := by
  simp only [check_stair_handrail_both_rule]
  rw [if_pos h]

theorem na_stair_width (s : Space)
    (h : toLowerAscii (s.type.getD "") ∉ RULE_STAIR_WIDTH.applies_to) :
    check_stair_width_rule s = naResult RULE_STAIR_WIDTH (toLowerAscii (s.type.getD "")) := by
  simp only [check_stair_width_rule]
  rw [if_pos h]

theorem na_window_sill (s : Space)
    (h : toLowerAscii (s.type.getD "") ∉ RULE_WINDOW_SILL_HEIGHT.applies_to) :
    check_window_sill_height_rule s = naResult RULE_WINDOW_SILL_HEIGHT (toLowerAscii (s.type.getD "")) := by
  simp only [check_window_sill_height_rule]
  rw [if_pos h]

theorem na_window_opening (s : Space)
    (h : toLowerAscii (s.type.getD "") ∉ RULE_WINDOW_OPENING_SIZE.applies_to) :
    check_window_opening_size_rule s = naResult RULE_WINDOW_OPENING_SIZE (toLowerAscii (s.type.getD "")) := by
  simp only [check_window_opening_size_rule]
  rw [if_pos h]

theorem na_tactile (s : Space)
    (h : toLowerAscii (s.type.getD "") ∉ RULE_TACTILE_GUIDANCE.applies_to) :
    check_tactile_guidance_rule s = naResult RULE_TACTILE_GUIDANCE (toLowerAscii (s.type.getD "")) := by
  simp only [check_tactile_guidance_rule]
  rw [if_pos h]

/-- C5: for every rule of the catalogue and every room whose (lowercased)
type is not in that rule's applicable set, the rule's result is
NOT_APPLICABLE with details naming the room's type, whatever the values of
every other attribute of the record (the statement quantifies over the full
record, so no other attribute can influence it). -/
theorem claim_C5_not_applicable (s : Space) (g : Option GeomResult) :
    (toLowerAscii (s.type.getD "") ∉ RULE_TURNING_CIRCLE.applies_to →
      naLike (check_turning_circle_rule s g) (toLowerAscii (s.type.getD ""))) ∧
    (toLowerAscii (s.type.getD "") ∉ RULE_DOOR_WIDTH.applies_to →
      naLike (check_door_width_rule s) (toLowerAscii (s.type.getD ""))) ∧
    (toLowerAscii (s.type.getD "") ∉ RULE_THRESHOLD.applies_to →
      naLike (check_threshold_rule s) (toLowerAscii (s.type.getD ""))) ∧
    (toLowerAscii (s.type.getD "") ∉ RULE_CORRIDOR_WIDTH.applies_to →
      naLike (check_corridor_width_rule s) (toLowerAscii (s.type.getD ""))) ∧
    (toLowerAscii (s.type.getD "") ∉ RULE_RAMP_SLOPE.applies_to →
      ∃ r, check_ramp_slope_rule s = Except.ok r ∧
        naLike r (toLowerAscii (s.type.getD ""))) ∧
    (toLowerAscii (s.type.getD "") ∉ RULE_HANDRAIL_HEIGHT.applies_to →
      naLike (check_handrail_height_rule s) (toLowerAscii (s.type.getD ""))) ∧
    (toLowerAscii (s.type.getD "") ∉ RULE_BATHROOM_DOOR_SWING.applies_to →
      naLike (check_bathroom_door_swing_rule s) (toLowerAscii (s.type.getD ""))) ∧
    (toLowerAscii (s.type.getD "") ∉ RULE_REST_AREA_25M.applies_to →
      naLike (check_rest_area_25m_rule s) (toLowerAscii (s.type.getD ""))) ∧
    (toLowerAscii (s.type.getD "") ∉ RULE_ELEVATOR_SIZE.applies_to →
      naLike (check_elevator_size_rule s) (toLowerAscii (s.type.getD ""))) ∧
    (toLowerAscii (s.type.getD "") ∉ RULE_ELEVATOR_DOOR_WIDTH.applies_to →
      naLike (check_elevator_door_width_rule s) (toLowerAscii (s.type.getD ""))) ∧
    (toLowerAscii (s.type.getD "") ∉ RULE_EMERGENCY_EXIT_WIDTH.applies_to →
      naLike (check_emergency_exit_width_rule s) (toLowerAscii (s.type.getD ""))) ∧
    (toLowerAscii (s.type.getD "") ∉ RULE_EMERGENCY_EXIT_DOOR_SWING.applies_to →
      naLike (check_emergency_exit_door_swing_rule s) (toLowerAscii (s.type.getD ""))) ∧
    (toLowerAscii (s.type.getD "") ∉ RULE_STAIR_DIMENSIONS.applies_to →
      naLike (check_stair_dimensions_rule s) (toLowerAscii (s.type.getD ""))) ∧
    (toLowerAscii (s.type.getD "") ∉ RULE_PARKING_WIDTH.applies_to →
      naLike (check_parking_width_rule s) (toLowerAscii (s.type.getD ""))) ∧
    (toLowerAscii (s.type.getD "") ∉ RULE_PARKING_LENGTH.applies_to →
      naLike (check_parking_length_rule s) (toLowerAscii (s.type.getD ""))) ∧
    (toLowerAscii (s.type.getD "") ∉ RULE_STAIR_HANDRAIL_BOTH.applies_to →
      naLike (check_stair_handrail_both_rule s) (toLowerAscii (s.type.getD ""))) ∧
    (toLowerAscii (s.type.getD "") ∉ RULE_STAIR_WIDTH.applies_to →
      naLike (check_stair_width_rule s) (toLowerAscii (s.type.getD ""))) ∧
    (toLowerAscii (s.type.getD "") ∉ RULE_WINDOW_SILL_HEIGHT.applies_to →
      naLike (check_window_sill_height_rule s) (toLowerAscii (s.type.getD ""))) ∧
    (toLowerAscii (s.type.getD "") ∉ RULE_WINDOW_OPENING_SIZE.applies_to →
      naLike (check_window_opening_size_rule s) (toLowerAscii (s.type.getD ""))) ∧
    (toLowerAscii (s.type.getD "") ∉ RULE_TACTILE_GUIDANCE.applies_to →
      naLike (check_tactile_guidance_rule s) (toLowerAscii (s.type.getD ""))) :=
  ⟨fun h => by rw [na_turning_circle s g h]; exact ⟨rfl, rfl⟩,
   fun h => by rw [na_door_width s h]; exact ⟨rfl, rfl⟩,
   fun h => by rw [na_threshold s h]; exact ⟨rfl, rfl⟩,
   fun h => by rw [na_corridor_width s h]; exact ⟨rfl, rfl⟩,
   fun h => ⟨naResult RULE_RAMP_SLOPE (toLowerAscii (s.type.getD "")),
     na_ramp_slope s h, rfl, rfl⟩,
   fun h => by rw [na_handrail_height s h]; exact ⟨rfl, rfl⟩,
   fun h => by rw [na_bathroom_door_swing s h]; exact ⟨rfl, rfl⟩,
   fun h => by rw [na_rest_area s h]; exact ⟨rfl, rfl⟩,
   fun h => by rw [na_elevator_size s h]; exact ⟨rfl, rfl⟩,
   fun h => by rw [na_elevator_door s h]; exact ⟨rfl, rfl⟩,
   fun h => by rw [na_exit_width s h]; exact ⟨rfl, rfl⟩,
   fun h => by rw [na_exit_door_swing s h]; exact ⟨rfl, rfl⟩,
   fun h => by rw [na_stair_dimensions s h]; exact ⟨rfl, rfl⟩,
   fun h => by rw [na_parking_width s h]; exact ⟨rfl, rfl⟩,
   fun h => by rw [na_parking_length s h]; exact ⟨rfl, rfl⟩,
   fun h => by rw [na_stair_handrail s h]; exact ⟨rfl, rfl⟩,
   fun h => by rw [na_stair_width s h]; exact ⟨rfl, rfl⟩,
   fun h => by rw [na_window_sill s h]; exact ⟨rfl, rfl⟩,
   fun h => by rw [na_window_opening s h]; exact ⟨rfl, rfl⟩,
   fun h => by rw [na_tactile s h]; exact ⟨rfl, rfl⟩⟩

/-- Witness for C5: every one of the 20 rules reports NOT_APPLICABLE for
the kitchen, naming its lowercased type, despite its other attributes. -/
theorem claim_C5_witness :
    naLike (check_turning_circle_rule kitchenSpace none)
      (toLowerAscii (kitchenSpace.type.getD "")) ∧
    naLike (check_door_width_rule kitchenSpace)
      (toLowerAscii (kitchenSpace.type.getD "")) ∧
    (∃ r, check_ramp_slope_rule kitchenSpace = Except.ok r ∧
      naLike r (toLowerAscii (kitchenSpace.type.getD ""))) ∧
    naLike (check_corridor_width_rule kitchenSpace)
      (toLowerAscii (kitchenSpace.type.getD "")) ∧
    naLike (check_tactile_guidance_rule kitchenSpace)
      (toLowerAscii (kitchenSpace.type.getD "")) := by
  have h := claim_C5_not_applicable kitchenSpace none
  exact ⟨h.1 (by decide), h.2.1 (by decide), h.2.2.2.2.1 (by decide),
    h.2.2.2.1 (by decide), h.2.2.2.2.2.2.2.2.2.2.2.2.2.2.2.2.2.2.2 (by decide)⟩

/-- C6: for every room whose type is in the turning-circle rule's applicable
set, a missing Feasibility Result argument gives status ERROR, a Feasibility
Result whose embedded space id differs from the room's id gives status
ERROR, and otherwise the status is PASS exactly when the result's passed
flag is true and FAIL exactly when it is false. -/
theorem claim_C6_turning_circle_contract (s : Space) (g : Option GeomResult)
    (h : toLowerAscii (s.type.getD "") ∈ RULE_TURNING_CIRCLE.applies_to) :
    (g = none → (check_turning_circle_rule s g).status = RuleStatus.ERROR) ∧
    (∀ gr, g = some gr → some gr.space_id ≠ s.id →
      (check_turning_circle_rule s g).status = RuleStatus.ERROR) ∧
    (∀ gr, g = some gr → some gr.space_id = s.id →
      (((check_turning_circle_rule s g).status = RuleStatus.PASS ↔ gr.passed = true) ∧
        ((check_turning_circle_rule s g).status = RuleStatus.FAIL ↔ gr.passed = false))) := by
  refine ⟨?_, ?_, ?_⟩
  · rintro rfl
    simp only [check_turning_circle_rule]
    rw [if_neg (not_not_intro h)]
  · rintro gr rfl hne
    simp only [check_turning_circle_rule]
    rw [if_neg (not_not_intro h), if_pos hne]
  · rintro gr rfl heq
    simp only [check_turning_circle_rule]
    rw [if_neg (not_not_intro h), if_neg (not_not_intro heq)]
    cases hp : gr.passed <;> simp

/-- Witness for C6: for the concrete bathroom, a missing feasibility result
and a mismatched one give ERROR, and the matching passing one gives PASS. -/
theorem claim_C6_witness :
    (check_turning_circle_rule spaceW none).status = RuleStatus.ERROR ∧
    (check_turning_circle_rule spaceW (some gBadId)).status = RuleStatus.ERROR ∧
    (check_turning_circle_rule spaceW (some geomW)).status = RuleStatus.PASS :=
  ⟨(claim_C6_turning_circle_contract spaceW none (by decide)).1 rfl,
   (claim_C6_turning_circle_contract spaceW (some gBadId) (by decide)).2.1
     gBadId rfl (by decide),
   ((claim_C6_turning_circle_contract spaceW (some geomW) (by decide)).2.2
     geomW rfl (by decide)).1.mpr rfl⟩

/-- C7: for every input whose boundary is present but has fewer than 3
points, the feasibility checker returns a failed result whose diagnostic
names the actual point count and the minimum of 3; the embedded checker is a
total function, as the source returns on every error path instead of
raising. -/
theorem claim_C7_too_few_points (s : Space) (b : List Point)
    (hb : s.boundary = some b) (hlen : b.length < 3) :
    (check_turning_circle s).passed = false ∧
    (check_turning_circle s).collision_details =
      some ("ERROR: Boundary has only " ++ toString b.length ++
        " points (minimum 3 required)") := by
  simp only [check_turning_circle, hb]
  rw [if_pos hlen]
  exact ⟨rfl, rfl⟩

/-- Witness for C7: the two-point boundary fails with the point-count
diagnostic. -/
theorem claim_C7_witness :
    (check_turning_circle twoPointSpace).passed = false ∧
    (check_turning_circle twoPointSpace).collision_details =
      some ("ERROR: Boundary has only " ++ toString ([⟨0, 0⟩, ⟨1000, 0⟩] : List Point).length ++
        " points (minimum 3 required)") :=
  claim_C7_too_few_points twoPointSpace [⟨0, 0⟩, ⟨1000, 0⟩] rfl (by decide)

/-- The ramp rule on an applicable room with a stored slope above 1/12. -/
theorem ramp_slope_fail (s : Space) (r : ℚ)
    (h : toLowerAscii (s.type.getD "") ∈ RULE_RAMP_SLOPE.applies_to)
    (hr : s.ramp_slope_ratio = some r) (hgt : ¬ r ≤ 1 / 12) :
    check_ramp_slope_rule s = Except.ok
      { rule_id := RULE_RAMP_SLOPE.id, rule_name := RULE_RAMP_SLOPE.name
        status := RuleStatus.FAIL
        details := "Ramp slope " ++ fmtNum (r * 100) ++ "% exceeds max 8.33% (1:12). " ++
          RULE_RAMP_SLOPE.description_en
        severity := RULE_RAMP_SLOPE.severity, reference := RULE_RAMP_SLOPE.reference } := by
  simp only [check_ramp_slope_rule, hr]
  rw [if_neg (not_not_intro h), if_neg hgt]

/-- The ramp rule on an applicable room with a nonzero stored slope at most
1/12. -/
theorem ramp_slope_pass (s : Space) (r : ℚ)
    (h : toLowerAscii (s.type.getD "") ∈ RULE_RAMP_SLOPE.applies_to)
    (hr : s.ramp_slope_ratio = some r) (hle : r ≤ 1 / 12) (hne : ¬ r = 0) :
    check_ramp_slope_rule s = Except.ok
      { rule_id := RULE_RAMP_SLOPE.id, rule_name := RULE_RAMP_SLOPE.name
        status := RuleStatus.PASS
        details := "Ramp slope " ++ fmtNum (r * 100) ++ "% (1:" ++ fmtNum (1 / r) ++
          ") <= max 8.33% (1:12). " ++ RULE_RAMP_SLOPE.description_en
        severity := RULE_RAMP_SLOPE.severity, reference := RULE_RAMP_SLOPE.reference } := by
  simp only [check_ramp_slope_rule, hr]
  rw [if_neg (not_not_intro h), if_pos hle]
  simp only [Bind.bind, Except.bind, pyDiv]
  rw [if_neg hne]

/-- The ramp rule on an applicable room with a stored slope of exactly 0:
the pass branch divides by the slope for its details and raises. -/
theorem ramp_slope_zero (s : Space)
    (h : toLowerAscii (s.type.getD "") ∈ RULE_RAMP_SLOPE.applies_to)
    (hr : s.ramp_slope_ratio = some 0) :
    check_ramp_slope_rule s = Except.error "ZeroDivisionError: float division by zero" := by
  simp only [check_ramp_slope_rule, hr]
  rw [if_neg (not_not_intro h), if_pos (by norm_num : (0 : ℚ) ≤ 1 / 12)]
  simp only [Bind.bind, Except.bind, pyDiv]
  simp

/-- Counterexample for C4: for the ramp with stored slope 8, the claim's
normalized comparison (8/100 = 0.08 is at most 1/12) predicts PASS, but the
rule compares the raw value 8 against 1/12 directly and returns FAIL. -/
theorem claim_C4_counterexample :
    rampEight.ramp_slope_ratio = some 8 ∧ (1 : ℚ) < 8 ∧ (8 : ℚ) / 100 ≤ 1 / 12 ∧
    ∃ res, check_ramp_slope_rule rampEight = Except.ok res ∧
      res.status = RuleStatus.FAIL :=
  ⟨rfl, by norm_num, by norm_num,
   ⟨_, ramp_slope_fail rampEight 8 (by decide) rfl (by norm_num), rfl⟩⟩

/-- C4 (amended): the ramp rule itself performs no percentage
normalization — on an applicable room with stored slope `r` it returns PASS
exactly when `r ≤ 1/12` and FAIL exactly when `r > 1/12` (except that a
stored slope of exactly 0 raises ZeroDivisionError from the pass-branch
formatting); the division-by-100 normalization of percentage inputs
(`1 < q ≤ 100`) happens upstream in the extractor, which stores only values
in `[0, 1]`. -/
theorem claim_C4_ramp_slope_amended (s : Space) (r : ℚ)
    (h : toLowerAscii (s.type.getD "") ∈ RULE_RAMP_SLOPE.applies_to)
    (hr : s.ramp_slope_ratio = some r) :
    (¬ r = 0 → ∃ res, check_ramp_slope_rule s = Except.ok res ∧
      ((res.status = RuleStatus.PASS ↔ r ≤ 1 / 12) ∧
        (res.status = RuleStatus.FAIL ↔ ¬ r ≤ 1 / 12))) ∧
    (r = 0 → check_ramp_slope_rule s =
      Except.error "ZeroDivisionError: float division by zero") ∧
    (∀ q : ℚ, 1 < q → q ≤ 100 → extract_ramp_slope q = some (q / 100)) ∧
    (∀ q v : ℚ, extract_ramp_slope q = some v → 0 ≤ v ∧ v ≤ 1) := by
  refine ⟨?_, ?_, ?_, ?_⟩
  · intro hne
    by_cases hle : r ≤ 1 / 12
    · refine ⟨_, ramp_slope_pass s r h hr hle hne, ?_, ?_⟩
      · exact iff_of_true rfl hle
      · exact iff_of_false (by simp) (not_not_intro hle)
    · refine ⟨_, ramp_slope_fail s r h hr hle, ?_, ?_⟩
      · exact iff_of_false (by simp) hle
      · exact iff_of_true rfl hle
  · intro h0
    exact ramp_slope_zero s h (h0 ▸ hr)
  · intro q h1 h2
    simp only [extract_ramp_slope]
    rw [if_pos (show 1 < q ∧ q ≤ 100 from ⟨h1, h2⟩),
      if_pos (show 0 ≤ q / 100 ∧ q / 100 ≤ 1 from
        ⟨div_nonneg (by linarith) (by norm_num),
          (div_le_one (by norm_num : (0 : ℚ) < 100)).mpr h2⟩)]
  · intro q v hqv
    simp only [extract_ramp_slope] at hqv
    split_ifs at hqv with h1 h2 h3 <;>
      first
        | exact Option.noConfusion hqv
        | (rw [Option.some.injEq] at hqv; subst hqv; assumption)

/-- Witness for C4 (amended): a ramp with stored slope 1/20 passes
(1/20 is at most 1/12 and nonzero), and the extractor normalizes the
percentage input 8 to 8/100. -/
theorem claim_C4_witness :
    (∃ res, check_ramp_slope_rule
        { id := some "r20", type := some "ramp", ramp_slope_ratio := some (1 / 20) } =
        Except.ok res ∧
      ((res.status = RuleStatus.PASS ↔ (1 : ℚ) / 20 ≤ 1 / 12) ∧
        (res.status = RuleStatus.FAIL ↔ ¬ (1 : ℚ) / 20 ≤ 1 / 12))) ∧
    extract_ramp_slope 8 = some (8 / 100) :=
  ⟨(claim_C4_ramp_slope_amended
      { id := some "r20", type := some "ramp", ramp_slope_ratio := some (1 / 20) }
      (1 / 20) (by decide) rfl).1 (by norm_num),
   (claim_C4_ramp_slope_amended
      { id := some "r20", type := some "ramp", ramp_slope_ratio := some (1 / 20) }
      (1 / 20) (by decide) rfl).2.2.1 8 (by norm_num) (by norm_num)⟩

theorem nc_corridor_width (s : Space)
    (h : toLowerAscii (s.type.getD "") ∈ RULE_CORRIDOR_WIDTH.applies_to)
    (hn : s.corridor_width_mm = none) :
    (check_corridor_width_rule s).status = RuleStatus.NOT_CHECKED := by
  simp only [check_corridor_width_rule, hn]
  rw [if_neg (not_not_intro h)]

theorem nc_handrail_height (s : Space)
    (h : toLowerAscii (s.type.getD "") ∈ RULE_HANDRAIL_HEIGHT.applies_to)
    (hn : s.handrail_height_mm = none) :
    (check_handrail_height_rule s).status = RuleStatus.NOT_CHECKED := by
  simp only [check_handrail_height_rule, hn]
  rw [if_neg (not_not_intro h)]

theorem nc_bathroom_door_swing (s : Space)
    (h : toLowerAscii (s.type.getD "") ∈ RULE_BATHROOM_DOOR_SWING.applies_to)
    (hn : s.door_opens_outward = none) :
    (check_bathroom_door_swing_rule s).status = RuleStatus.NOT_CHECKED := by
  simp only [check_bathroom_door_swing_rule, hn]
  rw [if_neg (not_not_intro h)]

theorem nc_rest_area (s : Space)
    (h : toLowerAscii (s.type.getD "") ∈ RULE_REST_AREA_25M.applies_to)
    (hn : s.rest_area_25m_compliant = none) :
    (check_rest_area_25m_rule s).status = RuleStatus.NOT_CHECKED := by
  simp only [check_rest_area_25m_rule, hn]
  rw [if_neg (not_not_intro h)]

theorem nc_elevator_door (s : Space)
    (h : toLowerAscii (s.type.getD "") ∈ RULE_ELEVATOR_DOOR_WIDTH.applies_to)
    (hn : s.elevator_door_width_mm = none) :
    (check_elevator_door_width_rule s).status = RuleStatus.NOT_CHECKED := by
  simp only [check_elevator_door_width_rule, hn]
  rw [if_neg (not_not_intro h)]

theorem nc_exit_width (s : Space)
    (h : toLowerAscii (s.type.getD "") ∈ RULE_EMERGENCY_EXIT_WIDTH.applies_to)
    (hn : s.emergency_exit_width_mm = none) :
    (check_emergency_exit_width_rule s).status = RuleStatus.NOT_CHECKED := by
  simp only [check_emergency_exit_width_rule, hn]
  rw [if_neg (not_not_intro h)]

theorem nc_exit_door_swing (s : Space)
    (h : toLowerAscii (s.type.getD "") ∈ RULE_EMERGENCY_EXIT_DOOR_SWING.applies_to)
    (hn : s.emergency_exit_door_opens_outward = none) :
    (check_emergency_exit_door_swing_rule s).status = RuleStatus.NOT_CHECKED := by
  simp only [check_emergency_exit_door_swing_rule, hn]
  rw [if_neg (not_not_intro h)]

theorem nc_parking_width (s : Space)
    (h : toLowerAscii (s.type.getD "") ∈ RULE_PARKING_WIDTH.applies_to)
    (hn : s.parking_width_mm = none) :
    (check_parking_width_rule s).status = RuleStatus.NOT_CHECKED := by
  simp only [check_parking_width_rule, hn]
  rw [if_neg (not_not_intro h)]

theorem nc_parking_length (s : Space)
    (h : toLowerAscii (s.type.getD "") ∈ RULE_PARKING_LENGTH.applies_to)
    (hn : s.parking_length_mm = none) :
    (check_parking_length_rule s).status = RuleStatus.NOT_CHECKED := by
  simp only [check_parking_length_rule, hn]
  rw [if_neg (not_not_intro h)]

theorem nc_stair_handrail (s : Space)
    (h : toLowerAscii (s.type.getD "") ∈ RULE_STAIR_HANDRAIL_BOTH.applies_to)
    (hn : s.stair_handrail_both_sides = none) :
    (check_stair_handrail_both_rule s).status = RuleStatus.NOT_CHECKED := by
  simp only [check_stair_handrail_both_rule, hn]
  rw [if_neg (not_not_intro h)]

theorem nc_stair_width (s : Space)
    (h : toLowerAscii (s.type.getD "") ∈ RULE_STAIR_WIDTH.applies_to)
    (hn : s.stair_width_mm = none) :
    (check_stair_width_rule s).status = RuleStatus.NOT_CHECKED := by
  simp only [check_stair_width_rule, hn]
  rw [if_neg (not_not_intro h)]

theorem nc_window_sill (s : Space)
    (h : toLowerAscii (s.type.getD "") ∈ RULE_WINDOW_SILL_HEIGHT.applies_to)
    (hn : s.window_sill_height_mm = none) :
    (check_window_sill_height_rule s).status = RuleStatus.NOT_CHECKED := by
  simp only [check_window_sill_height_rule, hn]
  rw [if_neg (not_not_intro h)]

theorem nc_tactile (s : Space)
    (h : toLowerAscii (s.type.getD "") ∈ RULE_TACTILE_GUIDANCE.applies_to)
    (hn : s.tactile_guidance_present = none) :
    (check_tactile_guidance_rule s).status = RuleStatus.NOT_CHECKED := by
  simp only [check_tactile_guidance_rule, hn]
  rw [if_neg (not_not_intro h)]

theorem nc_elevator_size (s : Space)
    (h : toLowerAscii (s.type.getD "") ∈ RULE_ELEVATOR_SIZE.applies_to)
    (hn : s.elevator_width_mm = none ∨ s.elevator_depth_mm = none) :
    (check_elevator_size_rule s).status = RuleStatus.NOT_CHECKED := by
  simp only [check_elevator_size_rule]
  rw [if_neg (not_not_intro h)]
  rcases hn with hn | hn
  · rw [hn]
  · rcases ha : s.elevator_width_mm with _ | w
    · rfl
    · rw [hn]

theorem nc_stair_dimensions (s : Space)
    (h : toLowerAscii (s.type.getD "") ∈ RULE_STAIR_DIMENSIONS.applies_to)
    (hn : s.stair_rise_mm = none ∨ s.stair_run_mm = none) :
    (check_stair_dimensions_rule s).status = RuleStatus.NOT_CHECKED := by
  simp only [check_stair_dimensions_rule]
  rw [if_neg (not_not_intro h)]
  rcases hn with hn | hn
  · rw [hn]
  · rcases ha : s.stair_rise_mm with _ | w
    · rfl
    · rw [hn]

theorem nc_window_opening (s : Space)
    (h : toLowerAscii (s.type.getD "") ∈ RULE_WINDOW_OPENING_SIZE.applies_to)
    (hn : s.window_opening_width_mm = none ∨ s.window_opening_height_mm = none) :
    (check_window_opening_size_rule s).status = RuleStatus.NOT_CHECKED := by
  simp only [check_window_opening_size_rule]
  rw [if_neg (not_not_intro h)]
  rcases hn with hn | hn
  · rw [hn]
  · rcases ha : s.window_opening_width_mm with _ | w
    · rfl
    · rw [hn]

theorem nc_ramp_slope (s : Space)
    (h : toLowerAscii (s.type.getD "") ∈ RULE_RAMP_SLOPE.applies_to)
    (hn : s.ramp_slope_ratio = none) :
    ∃ res, check_ramp_slope_rule s = Except.ok res ∧
      res.status = RuleStatus.NOT_CHECKED := by
  have heq : check_ramp_slope_rule s = Except.ok
      { rule_id := RULE_RAMP_SLOPE.id, rule_name := RULE_RAMP_SLOPE.name
        status := RuleStatus.NOT_CHECKED
        details := "Ramp slope not available in current IFC file. Will be checked when ramp geometry extraction is implemented."
        severity := RULE_RAMP_SLOPE.severity, reference := RULE_RAMP_SLOPE.reference } := by
    simp only [check_ramp_slope_rule, hn]
    rw [if_neg (not_not_intro h)]
  exact ⟨_, heq, rfl⟩

theorem nc_threshold (s : Space)
    (h : toLowerAscii (s.type.getD "") ∈ RULE_THRESHOLD.applies_to) :
    (check_threshold_rule s).status = RuleStatus.NOT_CHECKED := by
  simp only [check_threshold_rule]
  rw [if_neg (not_not_intro h)]

theorem door_width_error_no_boundary (s : Space)
    (h : toLowerAscii (s.type.getD "") ∈ RULE_DOOR_WIDTH.applies_to)
    (hb : s.boundary = none) :
    (check_door_width_rule s).status = RuleStatus.ERROR := by
  simp only [check_door_width_rule, hb]
  rw [if_neg (not_not_intro h)]

/-- Counterexample for C3: the door-width rule requires the boundary field
of the room record; for an applicable bathroom with the boundary absent it
returns ERROR — not NOT_CHECKED as the claim states for every rule. -/
theorem claim_C3_counterexample :
    toLowerAscii (bathroomNoBoundary.type.getD "") ∈ RULE_DOOR_WIDTH.applies_to ∧
    bathroomNoBoundary.boundary = none ∧
    (check_door_width_rule bathroomNoBoundary).status = RuleStatus.ERROR ∧
    RuleStatus.ERROR ≠ RuleStatus.NOT_CHECKED :=
  ⟨by decide, rfl,
   door_width_error_no_boundary bathroomNoBoundary (by decide) rfl, by decide⟩

/-- C3 (amended): for every rule whose required inputs are optional scalar
attributes — all catalogue rules except the turning-circle rule (whose input
is the feasibility result) and the door-width rule (whose input is the
boundary) — an applicable room with a required attribute absent gets
NOT_CHECKED; the threshold rule is NOT_CHECKED for every applicable room;
the door-width rule instead returns ERROR when the boundary is absent. -/
theorem claim_C3_not_checked_amended (s : Space) :
    (toLowerAscii (s.type.getD "") ∈ RULE_CORRIDOR_WIDTH.applies_to →
      s.corridor_width_mm = none →
      (check_corridor_width_rule s).status = RuleStatus.NOT_CHECKED) ∧
    (toLowerAscii (s.type.getD "") ∈ RULE_RAMP_SLOPE.applies_to →
      s.ramp_slope_ratio = none →
      ∃ res, check_ramp_slope_rule s = Except.ok res ∧
        res.status = RuleStatus.NOT_CHECKED) ∧
    (toLowerAscii (s.type.getD "") ∈ RULE_HANDRAIL_HEIGHT.applies_to →
      s.handrail_height_mm = none →
      (check_handrail_height_rule s).status = RuleStatus.NOT_CHECKED) ∧
    (toLowerAscii (s.type.getD "") ∈ RULE_BATHROOM_DOOR_SWING.applies_to →
      s.door_opens_outward = none →
      (check_bathroom_door_swing_rule s).status = RuleStatus.NOT_CHECKED) ∧
    (toLowerAscii (s.type.getD "") ∈ RULE_REST_AREA_25M.applies_to →
      s.rest_area_25m_compliant = none →
      (check_rest_area_25m_rule s).status = RuleStatus.NOT_CHECKED) ∧
    (toLowerAscii (s.type.getD "") ∈ RULE_ELEVATOR_SIZE.applies_to →
      s.elevator_width_mm = none ∨ s.elevator_depth_mm = none →
      (check_elevator_size_rule s).status = RuleStatus.NOT_CHECKED) ∧
    (toLowerAscii (s.type.getD "") ∈ RULE_ELEVATOR_DOOR_WIDTH.applies_to →
      s.elevator_door_width_mm = none →
      (check_elevator_door_width_rule s).status = RuleStatus.NOT_CHECKED) ∧
    (toLowerAscii (s.type.getD "") ∈ RULE_EMERGENCY_EXIT_WIDTH.applies_to →
      s.emergency_exit_width_mm = none →
      (check_emergency_exit_width_rule s).status = RuleStatus.NOT_CHECKED) ∧
    (toLowerAscii (s.type.getD "") ∈ RULE_EMERGENCY_EXIT_DOOR_SWING.applies_to →
      s.emergency_exit_door_opens_outward = none →
      (check_emergency_exit_door_swing_rule s).status = RuleStatus.NOT_CHECKED) ∧
    (toLowerAscii (s.type.getD "") ∈ RULE_STAIR_DIMENSIONS.applies_to →
      s.stair_rise_mm = none ∨ s.stair_run_mm = none →
      (check_stair_dimensions_rule s).status = RuleStatus.NOT_CHECKED) ∧
    (toLowerAscii (s.type.getD "") ∈ RULE_PARKING_WIDTH.applies_to →
      s.parking_width_mm = none →
      (check_parking_width_rule s).status = RuleStatus.NOT_CHECKED) ∧
    (toLowerAscii (s.type.getD "") ∈ RULE_PARKING_LENGTH.applies_to →
      s.parking_length_mm = none →
      (check_parking_length_rule s).status = RuleStatus.NOT_CHECKED) ∧
    (toLowerAscii (s.type.getD "") ∈ RULE_STAIR_HANDRAIL_BOTH.applies_to →
      s.stair_handrail_both_sides = none →
      (check_stair_handrail_both_rule s).status = RuleStatus.NOT_CHECKED) ∧
    (toLowerAscii (s.type.getD "") ∈ RULE_STAIR_WIDTH.applies_to →
      s.stair_width_mm = none →
      (check_stair_width_rule s).status = RuleStatus.NOT_CHECKED) ∧
    (toLowerAscii (s.type.getD "") ∈ RULE_WINDOW_SILL_HEIGHT.applies_to →
      s.window_sill_height_mm = none →
      (check_window_sill_height_rule s).status = RuleStatus.NOT_CHECKED) ∧
    (toLowerAscii (s.type.getD "") ∈ RULE_WINDOW_OPENING_SIZE.applies_to →
      s.window_opening_width_mm = none ∨ s.window_opening_height_mm = none →
      (check_window_opening_size_rule s).status = RuleStatus.NOT_CHECKED) ∧
    (toLowerAscii (s.type.getD "") ∈ RULE_TACTILE_GUIDANCE.applies_to →
      s.tactile_guidance_present = none →
      (check_tactile_guidance_rule s).status = RuleStatus.NOT_CHECKED) ∧
    (toLowerAscii (s.type.getD "") ∈ RULE_THRESHOLD.applies_to →
      (check_threshold_rule s).status = RuleStatus.NOT_CHECKED) ∧
    (toLowerAscii (s.type.getD "") ∈ RULE_DOOR_WIDTH.applies_to →
      s.boundary = none →
      (check_door_width_rule s).status = RuleStatus.ERROR) :=
  ⟨nc_corridor_width s, nc_ramp_slope s, nc_handrail_height s,
   nc_bathroom_door_swing s, nc_rest_area s, nc_elevator_size s,
   nc_elevator_door s, nc_exit_width s, nc_exit_door_swing s,
   nc_stair_dimensions s, nc_parking_width s, nc_parking_length s,
   nc_stair_handrail s, nc_stair_width s, nc_window_sill s,
   nc_window_opening s, nc_tactile s, nc_threshold s,
   door_width_error_no_boundary s⟩

/-- Witness for C3 (amended): each rule of the amended claim instantiated
at an applicable attribute-free room. -/
theorem claim_C3_witness :
    (check_corridor_width_rule corridorE).status = RuleStatus.NOT_CHECKED ∧
    (∃ res, check_ramp_slope_rule rampE = Except.ok res ∧
      res.status = RuleStatus.NOT_CHECKED) ∧
    (check_handrail_height_rule rampE).status = RuleStatus.NOT_CHECKED ∧
    (check_bathroom_door_swing_rule bathroomNoBoundary).status = RuleStatus.NOT_CHECKED ∧
    (check_rest_area_25m_rule corridorE).status = RuleStatus.NOT_CHECKED ∧
    (check_elevator_size_rule elevatorE).status = RuleStatus.NOT_CHECKED ∧
    (check_elevator_door_width_rule elevatorE).status = RuleStatus.NOT_CHECKED ∧
    (check_emergency_exit_width_rule exitE).status = RuleStatus.NOT_CHECKED ∧
    (check_emergency_exit_door_swing_rule exitE).status = RuleStatus.NOT_CHECKED ∧
    (check_stair_dimensions_rule stairE).status = RuleStatus.NOT_CHECKED ∧
    (check_parking_width_rule parkingE).status = RuleStatus.NOT_CHECKED ∧
    (check_parking_length_rule parkingE).status = RuleStatus.NOT_CHECKED ∧
    (check_stair_handrail_both_rule stairE).status = RuleStatus.NOT_CHECKED ∧
    (check_stair_width_rule stairE).status = RuleStatus.NOT_CHECKED ∧
    (check_window_sill_height_rule roomE).status = RuleStatus.NOT_CHECKED ∧
    (check_window_opening_size_rule roomE).status = RuleStatus.NOT_CHECKED ∧
    (check_tactile_guidance_rule corridorE).status = RuleStatus.NOT_CHECKED ∧
    (check_threshold_rule bathroomNoBoundary).status = RuleStatus.NOT_CHECKED ∧
    (check_door_width_rule bathroomNoBoundary).status = RuleStatus.ERROR :=
  ⟨(claim_C3_not_checked_amended corridorE).1 (by decide) rfl,
   (claim_C3_not_checked_amended rampE).2.1 (by decide) rfl,
   (claim_C3_not_checked_amended rampE).2.2.1 (by decide) rfl,
   (claim_C3_not_checked_amended bathroomNoBoundary).2.2.2.1 (by decide) rfl,
   (claim_C3_not_checked_amended corridorE).2.2.2.2.1 (by decide) rfl,
   (claim_C3_not_checked_amended elevatorE).2.2.2.2.2.1 (by decide) (Or.inl rfl),
   (claim_C3_not_checked_amended elevatorE).2.2.2.2.2.2.1 (by decide) rfl,
   (claim_C3_not_checked_amended exitE).2.2.2.2.2.2.2.1 (by decide) rfl,
   (claim_C3_not_checked_amended exitE).2.2.2.2.2.2.2.2.1 (by decide) rfl,
   (claim_C3_not_checked_amended stairE).2.2.2.2.2.2.2.2.2.1 (by decide) (Or.inl rfl),
   (claim_C3_not_checked_amended parkingE).2.2.2.2.2.2.2.2.2.2.1 (by decide) rfl,
   (claim_C3_not_checked_amended parkingE).2.2.2.2.2.2.2.2.2.2.2.1 (by decide) rfl,
   (claim_C3_not_checked_amended stairE).2.2.2.2.2.2.2.2.2.2.2.2.1 (by decide) rfl,
   (claim_C3_not_checked_amended stairE).2.2.2.2.2.2.2.2.2.2.2.2.2.1 (by decide) rfl,
   (claim_C3_not_checked_amended roomE).2.2.2.2.2.2.2.2.2.2.2.2.2.2.1 (by decide) rfl,
   (claim_C3_not_checked_amended roomE).2.2.2.2.2.2.2.2.2.2.2.2.2.2.2.1 (by decide) (Or.inl rfl),
   (claim_C3_not_checked_amended corridorE).2.2.2.2.2.2.2.2.2.2.2.2.2.2.2.2.1 (by decide) rfl,
   (claim_C3_not_checked_amended bathroomNoBoundary).2.2.2.2.2.2.2.2.2.2.2.2.2.2.2.2.2.1 (by decide),
   (claim_C3_not_checked_amended bathroomNoBoundary).2.2.2.2.2.2.2.2.2.2.2.2.2.2.2.2.2.2 (by decide) rfl⟩

/-- Whenever `check_compliance` returns a result, the recorded space type is
the lowercased type of the input record. -/
theorem check_compliance_space_type (s : Space) (g : Option GeomResult)
    (res : ComplianceResult) (h : check_compliance s g = Except.ok res) :
    res.space_type = toLowerAscii (s.type.getD "unknown") := by
  unfold check_compliance at h
  cases hv : validate_space_dict s <;> rw [hv] at h <;>
    simp only [Bind.bind, Except.bind] at h
  · exact Except.noConfusion h
  · cases hr : check_ramp_slope_rule s <;> rw [hr] at h
    · exact Except.noConfusion h
    · simp only [Except.ok.injEq] at h
      subst h
      rfl

/-- C10: rule applicability matching on the room type is case-insensitive —
replacing the type by any string with the same lowercasing produces the
identical compliance evaluation (hence the same status for every rule
result), and the returned Compliance Result records the lowercased type. -/
theorem claim_C10_case_insensitive_type (s : Space) (g : Option GeomResult)
    (t1 t2 : String) (h : toLowerAscii t1 = toLowerAscii t2) :
    check_compliance { s with type := some t1 } g =
      check_compliance { s with type := some t2 } g ∧
    (∀ res, check_compliance { s with type := some t1 } g = Except.ok res →
      res.space_type = toLowerAscii t1) := by
  constructor
  · unfold check_compliance validate_space_dict
    simp only [check_turning_circle_rule, check_door_width_rule,
      check_threshold_rule, check_corridor_width_rule, check_ramp_slope_rule,
      check_handrail_height_rule, check_bathroom_door_swing_rule,
      check_rest_area_25m_rule, check_elevator_size_rule,
      check_elevator_door_width_rule, check_emergency_exit_width_rule,
      check_emergency_exit_door_swing_rule, check_stair_dimensions_rule,
      check_parking_width_rule, check_parking_length_rule,
      check_stair_handrail_both_rule, check_stair_width_rule,
      check_window_sill_height_rule, check_window_opening_size_rule,
      check_tactile_guidance_rule, Option.getD, Option.isNone_some, h]
  · intro res hres
    exact check_compliance_space_type _ g res hres

/-- Witness for C10: the bathroom evaluated with type `Bathroom` and with
type `BATHROOM` gives identical results, recording the lowercased type. -/
theorem claim_C10_witness :
    check_compliance { spaceW with type := some "Bathroom" } (some geomW) =
      check_compliance { spaceW with type := some "BATHROOM" } (some geomW) ∧
    ∃ res, check_compliance { spaceW with type := some "Bathroom" } (some geomW) =
        Except.ok res ∧
      res.space_type = toLowerAscii "Bathroom" := by
  have h := claim_C10_case_insensitive_type spaceW (some geomW)
    "Bathroom" "BATHROOM" (by decide)
  have hok := check_compliance_ok_of { spaceW with type := some "Bathroom" }
    (some geomW) (naResult RULE_RAMP_SLOPE (toLowerAscii "Bathroom")) rfl rfl
  exact ⟨h.1, ⟨_, hok, h.2 _ hok⟩⟩

/-- Parity of level crossings along a cyclic vertex chain: walking
`v :: t` and closing with an edge back to `first`, the number of edges
whose endpoints straddle the level equals the parity of the straddle
between the first and the closing vertex. -/
theorem countP_levelCross_zip (p : Point) :
    ∀ (t : List Point) (v first : Point),
      (((v :: t).zip (t ++ [first])).countP (fun e => levelCross p e)) % 2 =
        (if decide (p.y < v.y) = decide (p.y < first.y) then 0 else 1) := by
  intro t
  induction t with
  | nil =>
    intro v first
    cases hv : decide (p.y < v.y) <;> cases hf : decide (p.y < first.y) <;>
      simp [levelCross, List.countP_cons, hv, hf]
  | cons w t ih =>
    intro v first
    have hzip : ((v :: w :: t).zip ((w :: t) ++ [first])) =
        (v, w) :: ((w :: t).zip (t ++ [first])) := rfl
    rw [hzip, List.countP_cons, Nat.add_mod, ih w first]
    cases hv : decide (p.y < v.y) <;> cases hw : decide (p.y < w.y) <;>
      cases hf : decide (p.y < first.y) <;>
      simp [levelCross, hv, hw, hf]

/-- A closed polygon crosses any horizontal level an even number of
times. -/
theorem countP_levelCross_even (p : Point) (poly : List Point) :
    ((polyEdges poly).countP (fun e => levelCross p e)) % 2 = 0 := by
  cases poly with
  | nil => rfl
  | cons v t =>
    have h := countP_levelCross_zip p t v v
    simp only [polyEdges]
    rw [h]
    simp

/-- Splitting a count over a conjunction with a second test. -/
theorem countP_and_split {α : Type} (p q : α → Bool) (l : List α) :
    l.countP (fun a => p a && q a) + l.countP (fun a => p a && ! q a) =
      l.countP p := by
  induction l with
  | nil => rfl
  | cons a t ih =>
    rw [List.countP_cons, List.countP_cons, List.countP_cons]
    cases hp : p a <;> cases hq : q a <;> simp [hp, hq] <;> omega

/-- A point inside the polygon (odd rightward crossings) has a crossing
edge strictly to its right and a crossing edge at or to its left. -/
theorem exists_cross_edges (p : Point) (poly : List Point)
    (h : pointInPolygon p poly = true) :
    (∃ e ∈ polyEdges poly, levelCross p e = true ∧ p.x < crossX p e) ∧
    (∃ e ∈ polyEdges poly, levelCross p e = true ∧ crossX p e ≤ p.x) := by
  unfold pointInPolygon at h
  rw [beq_iff_eq] at h
  have hdef : (polyEdges poly).countP (fun e => crossesRay p e) =
      (polyEdges poly).countP
        (fun e => levelCross p e && decide (p.x < crossX p e)) := rfl
  rw [hdef] at h
  have heven := countP_levelCross_even p poly
  have hsplit := countP_and_split (fun e => levelCross p e)
    (fun e => decide (p.x < crossX p e)) (polyEdges poly)
  constructor
  · have hpos : 0 < (polyEdges poly).countP
        (fun e => levelCross p e && decide (p.x < crossX p e)) := by omega
    obtain ⟨e, he, hpe⟩ := List.countP_pos_iff.mp hpos
    rw [Bool.and_eq_true, decide_eq_true_eq] at hpe
    exact ⟨e, he, hpe.1, hpe.2⟩
  · have hpos : 0 < (polyEdges poly).countP
        (fun e => levelCross p e && ! decide (p.x < crossX p e)) := by omega
    obtain ⟨e, he, hpe⟩ := List.countP_pos_iff.mp hpos
    rw [Bool.and_eq_true, Bool.not_eq_true', decide_eq_false_iff_not] at hpe
    exact ⟨e, he, hpe.1, le_of_not_lt hpe.2⟩

/-- Both endpoints of a boundary edge are vertices of the polygon. -/
theorem mem_polyEdges {e : Point × Point} {poly : List Point}
    (h : e ∈ polyEdges poly) : e.1 ∈ poly ∧ e.2 ∈ poly := by
  cases poly with
  | nil => cases h
  | cons v t =>
    have h2 := List.of_mem_zip h
    refine ⟨h2.1, ?_⟩
    rcases List.mem_append.mp h2.2 with h3 | h3
    · exact List.mem_cons_of_mem v h3
    · rw [List.mem_singleton] at h3
      rw [h3]
      exact List.mem_cons_self v t

theorem foldl_min_le_init (t : List Point) :
    ∀ acc : ℚ, t.foldl (fun m w => min m w.x) acc ≤ acc := by
  induction t with
  | nil => intro acc; exact le_refl acc
  | cons w t ih => intro acc; exact le_trans (ih (min acc w.x)) (min_le_left _ _)

theorem foldl_min_le_mem (t : List Point) :
    ∀ (acc : ℚ) (w : Point), w ∈ t →
      t.foldl (fun m u => min m u.x) acc ≤ w.x := by
  induction t with
  | nil => intro acc w hw; cases hw
  | cons u t ih =>
    intro acc w hw
    rcases List.mem_cons.mp hw with rfl | hw
    · exact le_trans (foldl_min_le_init t _) (min_le_right _ _)
    · exact ih _ w hw

/-- Every vertex x coordinate is at least the bounds minimum. -/
theorem minX_le_of_mem {v : Point} {poly : List Point} (h : v ∈ poly) :
    minX poly ≤ v.x := by
  cases poly with
  | nil => cases h
  | cons u t =>
    rcases List.mem_cons.mp h with rfl | h
    · exact foldl_min_le_init t _
    · exact foldl_min_le_mem t _ v h

theorem foldl_max_ge_init (t : List Point) :
    ∀ acc : ℚ, acc ≤ t.foldl (fun m w => max m w.x) acc := by
  induction t with
  | nil => intro acc; exact le_refl acc
  | cons w t ih => intro acc; exact le_trans (le_max_left _ _) (ih (max acc w.x))

theorem foldl_max_ge_mem (t : List Point) :
    ∀ (acc : ℚ) (w : Point), w ∈ t →
      w.x ≤ t.foldl (fun m u => max m u.x) acc := by
  induction t with
  | nil => intro acc w hw; cases hw
  | cons u t ih =>
    intro acc w hw
    rcases List.mem_cons.mp hw with rfl | hw
    · exact le_trans (le_max_right _ _) (foldl_max_ge_init t _)
    · exact ih _ w hw

/-- Every vertex x coordinate is at most the bounds maximum. -/
theorem le_maxX_of_mem {v : Point} {poly : List Point} (h : v ∈ poly) :
    v.x ≤ maxX poly := by
  cases poly with
  | nil => cases h
  | cons u t =>
    rcases List.mem_cons.mp h with rfl | h
    · exact foldl_max_ge_init t _
    · exact foldl_max_ge_mem t _ v h

/-- The clamped-projection formula gives the minimum over the segment: the
distance it computes is at most the distance to any point of the segment. -/
theorem distSqPointSeg_le_param (p a b : Point) (s : ℚ)
    (h0 : 0 ≤ s) (h1 : s ≤ 1) :
    distSqPointSeg p a b ≤
      (p.x - (a.x + s * (b.x - a.x))) ^ 2 + (p.y - (a.y + s * (b.y - a.y))) ^ 2 := by
  simp only [distSqPointSeg]
  by_cases hdd : (b.x - a.x) * (b.x - a.x) + (b.y - a.y) * (b.y - a.y) = 0
  · rw [if_pos hdd]
    have hx : b.x - a.x = 0 := by nlinarith [sq_nonneg (b.x - a.x), sq_nonneg (b.y - a.y)]
    have hy : b.y - a.y = 0 := by nlinarith [sq_nonneg (b.x - a.x), sq_nonneg (b.y - a.y)]
    rw [hx, hy]
    ring_nf
    exact le_refl _
  · rw [if_neg hdd]
    set dx := b.x - a.x with hdx
    set dy := b.y - a.y with hdy
    set dd := dx * dx + dy * dy with hdddef
    set u := p.x - a.x with hu
    set v := p.y - a.y with hv
    set c1 := u * dx + v * dy with hc1
    have hddpos : 0 < dd :=
      lt_of_le_of_ne (by nlinarith [mul_self_nonneg dx, mul_self_nonneg dy]) (Ne.symm hdd)
    set t := c1 / dd with ht
    have hct : c1 = t * dd := by
      rw [ht, div_mul_cancel₀ _ (ne_of_gt hddpos)]
    have key : ∀ w : ℚ, (p.x - (a.x + w * dx)) ^ 2 + (p.y - (a.y + w * dy)) ^ 2 =
        u ^ 2 + v ^ 2 - 2 * w * c1 + w ^ 2 * dd := by
      intro w
      rw [hc1, hu, hv, hdddef]
      ring
    rw [key s]
    rcases le_or_lt t 0 with htc | htc
    · have hmax : max 0 (min 1 t) = 0 :=
        max_eq_left (le_trans (min_le_right 1 t) htc)
      rw [hmax, key 0]
      have hfact : 0 ≤ s * ((s - 2 * t) * dd) :=
        mul_nonneg h0 (mul_nonneg (by linarith) (le_of_lt hddpos))
      nlinarith [hfact, hct]
    · rcases le_or_lt 1 t with htc1 | htc1
      · have hmax : max 0 (min 1 t) = 1 := by
          rw [min_eq_left htc1, max_eq_right zero_le_one]
        rw [hmax, key 1]
        have hfact : 0 ≤ (1 - s) * ((2 * t - s - 1) * dd) :=
          mul_nonneg (by linarith) (mul_nonneg (by linarith) (le_of_lt hddpos))
        nlinarith [hfact, hct]
      · have hmax : max 0 (min 1 t) = t := by
          rw [min_eq_right (le_of_lt htc1), max_eq_right (le_of_lt htc)]
        rw [hmax, key t]
        have hfact : 0 ≤ (s - t) ^ 2 * dd := mul_nonneg (sq_nonneg _) (le_of_lt hddpos)
        nlinarith [hfact, hct]

theorem levelCross_dist_bound_aux (p a b : Point) (hd : b.y - a.y ≠ 0)
    (ht0 : 0 ≤ (p.y - a.y) / (b.y - a.y)) (ht1 : (p.y - a.y) / (b.y - a.y) ≤ 1) :
    distSqPointSeg p a b ≤ (p.x - crossX p (a, b)) ^ 2 ∧
    min a.x b.x ≤ crossX p (a, b) ∧ crossX p (a, b) ≤ max a.x b.x := by
  set t := (p.y - a.y) / (b.y - a.y) with htdef
  have hx : crossX p (a, b) = a.x + t * (b.x - a.x) := by
    simp only [crossX, htdef]
    rw [div_mul_eq_mul_div]
  have hy : a.y + t * (b.y - a.y) = p.y := by
    rw [htdef, div_mul_cancel₀ _ hd]
    ring
  refine ⟨?_, ?_, ?_⟩
  · have hle := distSqPointSeg_le_param p a b t ht0 ht1
    rw [hy] at hle
    rw [hx]
    simpa using hle
  · rw [hx]
    rcases le_total a.x b.x with hab | hab
    · rw [min_eq_left hab]
      nlinarith [mul_nonneg ht0 (sub_nonneg.mpr hab)]
    · rw [min_eq_right hab]
      nlinarith [mul_nonneg (sub_nonneg.mpr ht1) (sub_nonneg.mpr hab)]
  · rw [hx]
    rcases le_total a.x b.x with hab | hab
    · rw [max_eq_right hab]
      nlinarith [mul_nonneg (sub_nonneg.mpr ht1) (sub_nonneg.mpr hab)]
    · rw [max_eq_left hab]
      nlinarith [mul_nonneg ht0 (sub_nonneg.mpr hab)]

/-- A boundary edge that straddles the level of `p` passes through a point
at height `p.y` and x coordinate `crossX`: the distance from `p` to the
edge is bounded by the horizontal gap to that point, which lies between
the endpoint x coordinates. -/
theorem levelCross_dist_bound (p a b : Point)
    (h : levelCross p (a, b) = true) :
    distSqPointSeg p a b ≤ (p.x - crossX p (a, b)) ^ 2 ∧
    min a.x b.x ≤ crossX p (a, b) ∧ crossX p (a, b) ≤ max a.x b.x := by
  simp only [levelCross, bne_iff_ne, ne_eq, decide_eq_decide] at h
  rcases lt_or_le p.y a.y with h1 | h1 <;> rcases lt_or_le p.y b.y with h2 | h2
  · exact absurd (iff_of_true h1 h2) h
  · have hd : b.y - a.y < 0 := by linarith
    exact levelCross_dist_bound_aux p a b (ne_of_lt hd)
      (div_nonneg_of_nonpos (by linarith) (le_of_lt hd))
      (by rw [div_le_one_iff]; exact Or.inr (Or.inr ⟨hd, by linarith⟩))
  · have hd : 0 < b.y - a.y := by linarith
    exact levelCross_dist_bound_aux p a b (ne_of_gt hd)
      (div_nonneg (by linarith) (le_of_lt hd))
      ((div_le_one hd).mpr (by linarith))
  · exact absurd (iff_of_false (not_lt.mpr h1) (not_lt.mpr h2)) h

/-- If the disc of radius `r` around `c` is contained in the polygon, the
bounding box is at least `2r` wide: the centre has a crossing edge on each
side, each at distance at least `r`, and the crossing points lie between
the bounds. -/
theorem circleContained_width (poly : List Point) (c : Point) (r : ℚ)
    (hr : 0 < r) (h : circleContainedInPolygon poly c r = true) :
    2 * r ≤ maxX poly - minX poly := by
  rw [circleContainedInPolygon, Bool.and_eq_true] at h
  obtain ⟨hin, hall⟩ := h
  rw [List.all_eq_true] at hall
  obtain ⟨⟨eR, heR, hlR, hxR⟩, ⟨eL, heL, hlL, hxL⟩⟩ := exists_cross_edges c poly hin
  have hdR := levelCross_dist_bound c eR.1 eR.2 hlR
  have hdL := levelCross_dist_bound c eL.1 eL.2 hlL
  have hclearR : r ^ 2 ≤ distSqPointSeg c eR.1 eR.2 := by
    have := hall eR heR
    rwa [decide_eq_true_eq] at this
  have hclearL : r ^ 2 ≤ distSqPointSeg c eL.1 eL.2 := by
    have := hall eL heL
    rwa [decide_eq_true_eq] at this
  have hR2 : r ^ 2 ≤ (c.x - crossX c eR) ^ 2 := le_trans hclearR hdR.1
  have hL2 : r ^ 2 ≤ (c.x - crossX c eL) ^ 2 := le_trans hclearL hdL.1
  have hgtR : c.x + r ≤ crossX c eR := by nlinarith [hR2, hxR, hr]
  have hgtL : crossX c eL ≤ c.x - r := by nlinarith [hL2, hxL, hr]
  have hmemR := mem_polyEdges heR
  have hmemL := mem_polyEdges heL
  have hmaxR : crossX c eR ≤ maxX poly := by
    refine le_trans hdR.2.2 ?_
    rcases le_total eR.1.x eR.2.x with hab | hab
    · rw [max_eq_right hab]
      exact le_maxX_of_mem hmemR.2
    · rw [max_eq_left hab]
      exact le_maxX_of_mem hmemR.1
  have hminL : minX poly ≤ crossX c eL := by
    refine le_trans ?_ hdL.2.1
    rcases le_total eL.1.x eL.2.x with hab | hab
    · rw [min_eq_left hab]
      exact minX_le_of_mem hmemL.1
    · rw [min_eq_right hab]
      exact minX_le_of_mem hmemL.2
  linarith

/-- C8: for every boundary whose bounding box is less than 1500mm wide and
less than 1500mm tall, the feasibility checker reports failure — no grid
candidate can carry a fully contained 1500mm disc, and every error path
also reports failure. -/
theorem claim_C8_small_bbox_fails (s : Space) (b : List Point)
    (hb : s.boundary = some b)
    (hw : maxX b - minX b < 1500) (hh : maxY b - minY b < 1500) :
    (check_turning_circle s).passed = false := by
  simp only [check_turning_circle, hb]
  split
  · rfl
  · split
    · rfl
    · split
      · next c heq =>
        have hpred := List.find?_some heq
        rw [Bool.and_eq_true] at hpred
        have hwide := circleContained_width b c 750 (by norm_num) hpred.2
        exact absurd hwide (by linarith)
      · split <;> rfl

/-- Witness for C8: the checker fails on the 1000mm square. -/
theorem claim_C8_witness :
    (check_turning_circle smallSquareSpace).passed = false :=
  claim_C8_small_bbox_fails smallSquareSpace
    [⟨0, 0⟩, ⟨1000, 0⟩, ⟨1000, 1000⟩, ⟨0, 1000⟩] rfl
    (by norm_num [maxX, minX, List.foldl, max_def, min_def])
    (by norm_num [maxY, minY, List.foldl, max_def, min_def])

/-- C1: for every room, the aggregate room status is computed from its 20
rule results by the fixed precedence — ERROR if any rule result is ERROR,
else FAIL if any CRITICAL-severity result is FAIL, else PARTIAL if any
result is NOT_CHECKED or any WARNING-severity result is FAIL, else PASS —
NOT_APPLICABLE results never influence the aggregate (filtering them out
leaves the aggregate unchanged), and the overall status `check_compliance`
reports is exactly this aggregation of its rule results. -/
theorem claim_C1_aggregation_precedence :
    (∀ rs : List RuleResult,
      (calculate_overall_status rs = OverallStatus.ERROR ↔
        ∃ r ∈ rs, r.status = RuleStatus.ERROR) ∧
      (calculate_overall_status rs = OverallStatus.FAIL ↔
        (¬ ∃ r ∈ rs, r.status = RuleStatus.ERROR) ∧
          ∃ r ∈ rs, r.status = RuleStatus.FAIL ∧ r.severity = Severity.CRITICAL) ∧
      (calculate_overall_status rs = OverallStatus.PARTIAL ↔
        (¬ ∃ r ∈ rs, r.status = RuleStatus.ERROR) ∧
          (¬ ∃ r ∈ rs, r.status = RuleStatus.FAIL ∧ r.severity = Severity.CRITICAL) ∧
          ((∃ r ∈ rs, r.status = RuleStatus.NOT_CHECKED) ∨
            ∃ r ∈ rs, r.status = RuleStatus.FAIL ∧ r.severity = Severity.WARNING)) ∧
      (calculate_overall_status rs = OverallStatus.PASS ↔
        (¬ ∃ r ∈ rs, r.status = RuleStatus.ERROR) ∧
          (¬ ∃ r ∈ rs, r.status = RuleStatus.FAIL ∧ r.severity = Severity.CRITICAL) ∧
          (¬ ∃ r ∈ rs, r.status = RuleStatus.NOT_CHECKED) ∧
          (¬ ∃ r ∈ rs, r.status = RuleStatus.FAIL ∧ r.severity = Severity.WARNING)) ∧
      calculate_overall_status
          (rs.filter (fun r => r.status != RuleStatus.NOT_APPLICABLE)) =
        calculate_overall_status rs) ∧
    (∀ (s : Space) (g : Option GeomResult) (res : ComplianceResult),
      check_compliance s g = Except.ok res →
        res.overall_status = calculate_overall_status res.rules_checked) :=
  ⟨fun rs =>
    ⟨overall_eq_ERROR_iff rs, overall_eq_FAIL_iff rs, overall_eq_PARTIAL_iff rs,
      overall_eq_PASS_iff rs, overall_filter_not_applicable rs⟩,
    fun s g res h => (check_compliance_overall s g res h).1⟩

/-- Witness for C1: for the concrete bathroom `spaceW`, the overall status
reported by the engine equals the aggregation of the reported rule
results. -/
theorem claim_C1_witness :
    check_compliance spaceW (some geomW) = Except.ok resW ∧
      resW.overall_status = calculate_overall_status resW.rules_checked :=
  ⟨resW_spec,
    claim_C1_aggregation_precedence.2 spaceW (some geomW) resW resW_spec⟩

/-- Whenever `check_compliance` returns a result, its `rules_checked` list
carries exactly one result per catalogue entry, in catalogue order. -/
theorem check_compliance_rule_ids (s : Space) (g : Option GeomResult)
    (res : ComplianceResult) (h : check_compliance s g = Except.ok res) :
    res.rules_checked.map RuleResult.rule_id = catalogueRuleIds := by
  unfold check_compliance at h
  cases hv : validate_space_dict s <;> rw [hv] at h <;>
    simp only [Bind.bind, Except.bind] at h
  · exact Except.noConfusion h
  · cases hr : check_ramp_slope_rule s <;> rw [hr] at h
    · exact Except.noConfusion h
    · simp only [Except.ok.injEq] at h
      subst h
      exact engineResults_rule_ids s g _ (rule_id_ramp_slope s _ hr)

/-- C2: for every accepted room record, `check_compliance` is claimed to
return a result with exactly one rule result per catalogue entry (20 in
total). The completeness holds for every evaluation that returns — the
identifier list of `rules_checked` is exactly the 20 catalogue identifiers
in order — but the flat ramp `rampZero` (mandatory id and type present) is
accepted and still produces no result at all: the ramp rule's pass-branch
detail formatting divides by the zero slope and the ZeroDivisionError
escapes `check_compliance`. -/
theorem claim_C2_twenty_rule_results :
    (rampZero.id.isSome = true ∧ rampZero.type.isSome = true ∧
      check_compliance rampZero none =
        Except.error "ZeroDivisionError: float division by zero") ∧
    (∀ (s : Space) (g : Option GeomResult) (res : ComplianceResult),
      check_compliance s g = Except.ok res →
        res.rules_checked.map RuleResult.rule_id = catalogueRuleIds ∧
          res.rules_checked.length = 20) :=
  ⟨⟨rfl, rfl, check_compliance_rampZero⟩,
    fun s g res h =>
      ⟨check_compliance_rule_ids s g res h, (check_compliance_overall s g res h).2⟩⟩

/-- Witness for C2: the concrete bathroom evaluation returns the full
catalogue of 20 rule results in order. -/
theorem claim_C2_witness :
    resW.rules_checked.map RuleResult.rule_id = catalogueRuleIds ∧
      resW.rules_checked.length = 20 :=
  claim_C2_twenty_rule_results.2 spaceW (some geomW) resW resW_spec

/-- C9: the claim says `check_compliance` raises exactly when the mandatory
`id` or `type` field is missing. Missing-field records are indeed rejected
with a ValueError and ordinary records are evaluated, but the flat ramp
`rampZero` carries both mandatory fields and still raises: the ramp rule's
pass-branch f-string computes `1/slope_ratio`, a ZeroDivisionError for a
stored slope of 0, so "contains both fields" does not guarantee a returned
Compliance Result. -/
theorem claim_C9_validation_raises :
    (check_compliance noIdSpace none =
      Except.error "ValueError: Space dictionary missing required fields: id, type") ∧
    (check_compliance spaceW (some geomW)).isOk = true ∧
    (rampZero.id.isSome = true ∧ rampZero.type.isSome = true ∧
      check_compliance rampZero none =
        Except.error "ZeroDivisionError: float division by zero") :=
  ⟨rfl, by rw [resW_spec]; rfl, rfl, rfl, check_compliance_rampZero⟩
